import Mathlib

/-!
Verification of the LLM-routing layer of the study-with-ai repository.

This file gives a shallow embedding, in Lean 4, of the orchestration layer in
`src/praktikum_app` — the routing policy (`infrastructure/llm/config.py`), the
retry executor (`infrastructure/llm/retry.py`), the schema-validation and
markdown-fence preprocessing, prompt hashing and audit persistence of the
router (`infrastructure/llm/router.py`), and the two repair-loop orchestrators
(`application/course_decomposition.py`, `application/practice_generation.py`).

Modelling conventions:
* Python `str` is modelled by Lean `String` at code-point granularity; the
  Python `str.strip` / `str.splitlines` helpers are modelled explicitly below
  over the full documented character sets: `str.strip()` over the Unicode
  whitespace set of `str.isspace()`, and `str.splitlines()` over all its
  documented line boundaries (`\n`, `\r`, `\r\n`, `\v`, `\f`, `\x1c`-`\x1e`,
  `\x85`, U+2028 line separator, U+2029 paragraph separator).
* Python floats for retry delays are modelled by exact rationals; every
  delay value appearing in the verified statements (0.1, 0.2, 2.0 and their
  products with 2.0) is computed exactly by both representations.
* The SHA-256 digest is kept abstract: theorems are parameterised by the
  digest function `h : String → String` applied to the exact byte-string the
  code feeds to `hashlib.sha256`.
* Exceptions are modelled by an `Except` monad over a closed error type whose
  constructors correspond to the exception classes of
  `infrastructure/llm/errors.py`; effects (transport calls, backoff sleeps and
  audit writes) are returned as explicit traces.
-/

namespace StudyWithAi

/-! ### Python string helpers -/

/-- Whitespace characters stripped by Python `str.strip()`: the full
`str.isspace()` set (U+0009-U+000D, U+001C-U+001F, U+0020, U+0085, U+00A0,
U+1680, U+2000-U+200A, U+2028, U+2029, U+202F, U+205F, U+3000). -/
def pyIsSpace (c : Char) : Bool :=
  (0x09 ≤ c.toNat && c.toNat ≤ 0x0d) || (0x1c ≤ c.toNat && c.toNat ≤ 0x1f)
    || c = ' ' || c = '\x85' || c = '\xa0' || c = '\u1680'
    || (0x2000 ≤ c.toNat && c.toNat ≤ 0x200a)
    || c = '\u2028' || c = '\u2029' || c = '\u202f' || c = '\u205f' || c = '\u3000'

/-- `str.strip()` on a list of characters: drop whitespace from both ends. -/
def stripChars (cs : List Char) : List Char :=
  ((cs.dropWhile pyIsSpace).reverse.dropWhile pyIsSpace).reverse

/-- Python `str.strip()` with no arguments. -/
def pyStrip (s : String) : String :=
  ⟨stripChars s.data⟩

/-- The line-boundary characters of Python `str.splitlines()`: `\n`, `\r`,
`\v` (U+000B), `\f` (U+000C), the file/group/record separators U+001C-U+001E,
the next-line character U+0085, and the line/paragraph separators U+2028 and
U+2029.  The pair `\r\n` is handled separately as a single boundary. -/
def pyIsLineBreak (c : Char) : Bool :=
  c = '\n' || c = '\r' || c = '\x0b' || c = '\x0c'
    || c = '\x1c' || c = '\x1d' || c = '\x1e'
    || c = '\x85' || c = '\u2028' || c = '\u2029'

/-- Normalize the line boundaries recognised by `str.splitlines()` to a
single `\n`: `\r\n` counts as one boundary, and every other boundary
character marks exactly one boundary of its own. -/
def normalizeNewlines : List Char → List Char
  | [] => []
  | [c] => if pyIsLineBreak c then ['\n'] else [c]
  | c1 :: c2 :: rest =>
    if c1 = '\r' then
      if c2 = '\n' then '\n' :: normalizeNewlines rest
      else '\n' :: normalizeNewlines (c2 :: rest)
    else if pyIsLineBreak c1 then '\n' :: normalizeNewlines (c2 :: rest)
    else c1 :: normalizeNewlines (c2 :: rest)

/-- Worker for `str.splitlines()` on boundary-normalized text: accumulates
the current line (reversed) and splits at `\n`.  A trailing line terminator
does not produce a final empty line, matching Python. -/
def splitLinesAux : List Char → List Char → List (List Char)
  | [], acc => if acc.isEmpty then [] else [acc.reverse]
  | c :: rest, acc =>
    if c = '\n' then acc.reverse :: splitLinesAux rest []
    else splitLinesAux rest (c :: acc)

/-- Python `str.splitlines()`, over all its documented line boundaries. -/
def pySplitlines (s : String) : List String :=
  (splitLinesAux (normalizeNewlines s.data) []).map (fun cs => ⟨cs⟩)

/-- Lowercase an ASCII character, as `str.lower()` does on the ASCII range. -/
def asciiLowerChar (c : Char) : Char :=
  if 'A' ≤ c ∧ c ≤ 'Z' then Char.ofNat (c.toNat + 32) else c

/-- `str.lower()` restricted to the ASCII range. -/
def asciiLower (s : String) : String :=
  ⟨s.data.map asciiLowerChar⟩

/-- `"\n".join(lines)` on lists of characters. -/
def joinNL : List (List Char) → List Char
  | [] => []
  | [l] => l
  | l :: ls => l ++ '\n' :: joinNL ls

/-- `"\n".join(lines)` on strings. -/
def joinLines (ls : List String) : String :=
  ⟨joinNL (ls.map String.data)⟩

/-- Python `startswith` on strings. -/
def pyStartsWith (s pre : String) : Bool :=
  pre.data.isPrefixOf s.data

/-- Substring search on character lists: does `needle` occur in `haystack`? -/
def listContainsSub : List Char → List Char → Bool
  | haystack, needle =>
    match haystack with
    | [] => needle.isEmpty
    | _ :: rest => needle.isPrefixOf haystack || listContainsSub rest needle

/-- Substring search, `needle in haystack` for Python strings. -/
def containsSubstr (haystack needle : String) : Bool :=
  listContainsSub haystack.data needle.data

/-! ### Markdown fence stripping (`router.py::_strip_markdown_json_fence`) -/

/-- `_strip_markdown_json_fence` from `infrastructure/llm/router.py`:
strip the payload, and when it is a fenced code block whose first line is
` ``` ` or starts with ` ```json ` (case-insensitive) and whose last line is
` ``` `, return the joined interior lines, stripped again. -/
def stripMarkdownJsonFence (value : String) : String :=
  let stripped := pyStrip value
  if ¬ pyStartsWith stripped "```" then stripped
  else
    let lines := pySplitlines stripped
    if lines.length < 3 then stripped
    else
      let firstLine := asciiLower (pyStrip (lines.headD ""))
      let lastLine := pyStrip (lines.getLastD "")
      if lastLine ≠ "```" then stripped
      else if firstLine ≠ "```" ∧ ¬ pyStartsWith firstLine "```json" then stripped
      else pyStrip (joinLines ((lines.drop 1).dropLast))

/-! ### Task types, providers, routes (`application/llm.py`, `config.py`) -/

/-- `LLMTaskType` (application/llm.py): closed set of routed task types. -/
inductive LLMTaskType where
  | course_parse
  | practice_gen
  | practice_grade
  | curator_msg
deriving DecidableEq, Repr

/-- `.value` of an `LLMTaskType` member. -/
def LLMTaskType.value : LLMTaskType → String
  | .course_parse => "course_parse"
  | .practice_gen => "practice_gen"
  | .practice_grade => "practice_grade"
  | .curator_msg => "curator_msg"

/-- `LLMServiceProvider` (application/llm.py): closed set of providers. -/
inductive LLMServiceProvider where
  | anthropic
  | openrouter
deriving DecidableEq, Repr

/-- `.value` of an `LLMServiceProvider` member. -/
def LLMServiceProvider.value : LLMServiceProvider → String
  | .anthropic => "anthropic"
  | .openrouter => "openrouter"

/-- `TaskRoute` (infrastructure/llm/config.py): provider/model pair. -/
structure TaskRoute where
  provider : LLMServiceProvider
  model : String
deriving DecidableEq, Repr

/-! ### Error taxonomy (`infrastructure/llm/errors.py`)

The constructors correspond one-to-one to the exception classes raised by the
LLM infrastructure code.  The application-level base classes
(`MissingApiKeyLLMError`, `LLMTemporaryError`, `LLMRequestRejectedError`,
`LLMResponseSchemaError`) are imported by `errors.py` from
`application/llm.py` but their declarations are not part of the source tree;
their rôle here is only the subclass relation declared in `errors.py`, which
the class-membership predicates below encode. -/

/-- Closed error type for every exception the LLM layer can raise.
`pyTypeError` models the dynamic `TypeError` Python raises when a function is
called with a keyword argument its signature does not accept. -/
inductive LLMError where
  | configurationError (msg : String)
  | missingApiKey (msg : String)
  | executionError (msg : String)
  | requestRejected (msg : String)
  | providerRequestError (msg : String)
  | providerResponseError (msg : String)
  | providerRateLimitError (msg : String)
  | providerServerError (msg : String)
  | httpxTimeout (msg : String)
  | httpxTransportError (msg : String)
  | retryExhausted (attempts : Nat) (cause : LLMError)
  | responseValidation (repairPrompt llmCallId invalidOutput validationErrors : String)
  | pyTypeError (msg : String)
deriving DecidableEq, Repr

/-- `str(exc)` for the modelled exceptions (the message the constructor got;
`LLMRetryExhaustedError` formats its attempt count, and
`LLMResponseValidationError` is always constructed with the fixed message in
`router.py::_parse_schema`). -/
def LLMError.message : LLMError → String
  | .configurationError m => m
  | .missingApiKey m => m
  | .executionError m => m
  | .requestRejected m => m
  | .providerRequestError m => m
  | .providerResponseError m => m
  | .providerRateLimitError m => m
  | .providerServerError m => m
  | .httpxTimeout m => m
  | .httpxTransportError m => m
  | .retryExhausted n _ => "Retry budget exhausted after " ++ toString n ++ " attempts."
  | .responseValidation _ _ _ _ => "LLM output failed schema validation."
  | .pyTypeError m => m

/-- `is_retryable_llm_error` (infrastructure/llm/retry.py): retry only on
`ProviderRateLimitError`, `ProviderServerError`, `httpx.TimeoutException`
and `httpx.TransportError`. -/
def isRetryableLLMError : LLMError → Bool
  | .providerRateLimitError _ => true
  | .providerServerError _ => true
  | .httpxTimeout _ => true
  | .httpxTransportError _ => true
  | _ => false

/-- Membership in `MissingApiKeyLLMError` (per `errors.py`:
`MissingApiKeyError` subclasses it). -/
def LLMError.isMissingApiKeyClass : LLMError → Bool
  | .missingApiKey _ => true
  | _ => false

/-- Membership in `LLMRequestRejectedError` (per `errors.py`:
`ProviderRequestError` subclasses it, and the router raises the base class
directly). -/
def LLMError.isRequestRejectedClass : LLMError → Bool
  | .requestRejected _ => true
  | .providerRequestError _ => true
  | _ => false

/-- Membership in `LLMTemporaryError` (per `errors.py`: `LLMExecutionError`
subclasses it). -/
def LLMError.isTemporaryClass : LLMError → Bool
  | .executionError _ => true
  | _ => false

/-- Membership in `LLMResponseSchemaError` (per `errors.py`:
`LLMResponseValidationError` subclasses it). -/
def LLMError.isResponseSchemaClass : LLMError → Bool
  | .responseValidation _ _ _ _ => true
  | _ => false

/-- Modelled from the spec: the five caller-visible taxonomy kinds of §7 —
configuration, missing-credential, provider-rejected (class
`LLMRequestRejectedError`, which `ProviderRequestError` subclasses),
provider-unavailable (class `LLMTemporaryError`) and schema-invalid (class
`LLMResponseSchemaError`).  Transport-internal classes
(`ProviderResponseError`, `ProviderRateLimitError`, `ProviderServerError`,
the httpx errors, `LLMRetryExhaustedError`) and the dynamic `TypeError` are
not caller-visible kinds. -/
def LLMError.isCallerVisibleTaxonomy : LLMError → Bool
  | .configurationError _ => true
  | .missingApiKey _ => true
  | .executionError _ => true
  | .requestRejected _ => true
  | .providerRequestError _ => true
  | .responseValidation _ _ _ _ => true
  | _ => false

/-! ### Retry executor (`infrastructure/llm/retry.py`) -/

/-- `RetryPolicy` with the defaults of `retry.py`; delays in exact rationals. -/
structure RetryPolicy where
  max_attempts : Nat := 3
  base_delay_seconds : ℚ := 1/4
  max_delay_seconds : ℚ := 2
  backoff_multiplier : ℚ := 2
deriving DecidableEq, Repr

/-- The constructor checks of `RetryExecutor.__init__`. -/
def retryPolicyValid (p : RetryPolicy) : Bool :=
  1 ≤ p.max_attempts && 0 ≤ p.base_delay_seconds && 0 ≤ p.max_delay_seconds
    && 1 ≤ p.backoff_multiplier

/-- The backoff formula of `RetryExecutor.run`:
`min(max_delay, base_delay * multiplier ** (attempt - 1))`. -/
def backoffDelay (p : RetryPolicy) (attempt : Nat) : ℚ :=
  min p.max_delay_seconds (p.base_delay_seconds * p.backoff_multiplier ^ (attempt - 1))

/-- Result of one `RetryExecutor.run` invocation: the returned value or
raised error, the sequence of backoff sleeps, and the number of times the
wrapped operation was called. -/
structure RunTrace (α : Type) where
  result : Except LLMError α
  sleeps : List ℚ
  calls : Nat
deriving Repr

/-- The loop body of `RetryExecutor.run`.  The operation is modelled as a
function of the attempt number (the scripted behaviour of the provider, as in
the repository's `SequenceProvider` test double).  `fuel` maintains the
invariant `fuel = max_attempts - attempt`, so the Python guard
`attempt >= max_attempts` is exactly `fuel = 0`: a retryable error with no
fuel left raises `LLMRetryExhaustedError` wrapping the last error, and
otherwise the executor sleeps `backoffDelay` and retries. -/
def retryRunGo (p : RetryPolicy) (op : Nat → Except LLMError α) :
    Nat → Nat → RunTrace α
  | attempt, fuel =>
    match op attempt with
    | .ok v => ⟨.ok v, [], attempt⟩
    | .error e =>
      if isRetryableLLMError e then
        match fuel with
        | 0 => ⟨.error (.retryExhausted attempt e), [], attempt⟩
        | fuel' + 1 =>
          let t := retryRunGo p op (attempt + 1) fuel'
          ⟨t.result, backoffDelay p attempt :: t.sleeps, t.calls⟩
      else ⟨.error e, [], attempt⟩

/-- `RetryExecutor.run`: start at attempt 1 with `max_attempts - 1` retries
remaining. -/
def retryRun (p : RetryPolicy) (op : Nat → Except LLMError α) : RunTrace α :=
  retryRunGo p op 1 (p.max_attempts - 1)

/-! ### Routing policy and configuration (`infrastructure/llm/config.py`) -/

/-- `EXPECTED_PROVIDER_BY_TASK`: the fixed compliance table. -/
def expectedProviderByTask : LLMTaskType → LLMServiceProvider
  | .course_parse => .anthropic
  | .practice_grade => .anthropic
  | .practice_gen => .openrouter
  | .curator_msg => .openrouter

/-- Iteration order of `EXPECTED_PROVIDER_BY_TASK.items()` (dict insertion
order in `config.py`). -/
def policyTaskOrder : List LLMTaskType :=
  [.course_parse, .practice_grade, .practice_gen, .curator_msg]

/-- One step of `validate_routing_policy`: check the route of each task type
in iteration order, failing fast with `LLMConfigurationError`. -/
def validateRoutingPolicyGo (routes : LLMTaskType → Option TaskRoute) :
    List LLMTaskType → Except LLMError Unit
  | [] => .ok ()
  | t :: ts =>
    match routes t with
    | none => .error (.configurationError ("Missing route for task type: " ++ t.value))
    | some route =>
      if route.provider ≠ expectedProviderByTask t then
        .error (.configurationError
          ("Policy violation for task " ++ t.value ++ ": expected "
            ++ (expectedProviderByTask t).value ++ ", got " ++ route.provider.value ++ "."))
      else validateRoutingPolicyGo routes ts

/-- `validate_routing_policy` (config.py). -/
def validateRoutingPolicy (routes : LLMTaskType → Option TaskRoute) : Except LLMError Unit :=
  validateRoutingPolicyGo routes policyTaskOrder

/-- `_resolve_model`: use the environment override unless blank after
stripping. -/
def resolveModel (envValue : Option String) (fallback : String) : String :=
  let resolved := pyStrip (envValue.getD "")
  if resolved = "" then fallback else resolved

/-- `DEFAULT_ANTHROPIC_MODEL`. -/
def defaultAnthropicModel : String := "claude-opus-4-6"

/-- `DEFAULT_OPENROUTER_MODEL`. -/
def defaultOpenrouterModel : String := "openai/gpt-4o-mini"

/-- `default_routes` (config.py), parameterised by the two optional
environment-variable values. -/
def defaultRoutes (anthropicEnv openrouterEnv : Option String) :
    LLMTaskType → Option TaskRoute :=
  let anthropicModel := resolveModel anthropicEnv defaultAnthropicModel
  let openrouterModel := resolveModel openrouterEnv defaultOpenrouterModel
  fun t =>
    match t with
    | .course_parse => some ⟨.anthropic, anthropicModel⟩
    | .practice_grade => some ⟨.anthropic, anthropicModel⟩
    | .practice_gen => some ⟨.openrouter, openrouterModel⟩
    | .curator_msg => some ⟨.openrouter, openrouterModel⟩

/-- `LLMRouterConfig` (config.py). -/
structure LLMRouterConfig where
  routes : LLMTaskType → Option TaskRoute
  timeout_seconds : ℚ := 30
  retry_policy : RetryPolicy := {}

/-- `LLMRouter.__init__` validates the routing policy before the router can
serve any request; construction fails with the configuration error
otherwise. -/
def mkLLMRouter (config : LLMRouterConfig) : Except LLMError LLMRouterConfig :=
  match validateRoutingPolicy config.routes with
  | .error e => .error e
  | .ok _ => .ok config

/-! ### Request/response DTOs (`application/llm.py`) -/

/-- `ProviderCallRequest` DTO. -/
structure ProviderCallRequest where
  model : String
  api_key : String
  system_prompt : String
  user_prompt : String
  max_output_tokens : Nat
  temperature : ℚ
  timeout_seconds : ℚ
deriving Repr

/-- `ProviderCallResponse` DTO. -/
structure ProviderCallResponse where
  output_text : String
  input_tokens : Option Nat
  output_tokens : Option Nat
deriving DecidableEq, Repr

/-- A pydantic response-schema class, modelled by its two capabilities used
in `router.py`: `model_validate_json` (validation of the normalized text) and
the `json.dumps(..., sort_keys=True, indent=2)` serialisation of
`model_json_schema()` embedded into repair prompts. -/
structure SchemaModel (π : Type) where
  validate : String → Except String π
  jsonSchemaText : String

/-- `LLMRequest` (application/llm.py). -/
structure LLMRequest (π : Type) where
  task_type : LLMTaskType
  system_prompt : String
  user_prompt : String
  response_schema : SchemaModel π
  correlation_id : String
  course_id : Option String := none
  module_id : Option String := none
  max_output_tokens : Nat := 2048
  temperature : ℚ := 1/5

/-- `LLMResponse` (application/llm.py). -/
structure LLMResponse (π : Type) where
  llm_call_id : String
  provider : LLMServiceProvider
  model : String
  prompt_hash : String
  latency_ms : Int
  parsed : π
  output_text : String
  input_tokens : Option Nat
  output_tokens : Option Nat
deriving DecidableEq, Repr

/-! ### Prompt hash and schema validation (`router.py`) -/

/-- The exact text `_compute_prompt_hash` feeds to `hashlib.sha256`:
system prompt, the literal separator `"\n---\n"`, then the user prompt. -/
def promptHashInput (systemPrompt userPrompt : String) : String :=
  systemPrompt ++ "\n---\n" ++ userPrompt

/-- `_compute_prompt_hash`, parameterised by the digest function `h`
(modelling `sha256(...).hexdigest()`). -/
def computePromptHash (h : String → String) (systemPrompt userPrompt : String) : String :=
  h (promptHashInput systemPrompt userPrompt)

/-- `_compute_latency_ms`: `max(0, int((now - started) * 1000))`. -/
def computeLatencyMs (started now : ℚ) : Int :=
  max 0 ⌊(now - started) * 1000⌋

/-- The fixed Russian instruction header of `_build_repair_prompt`. -/
def repairPromptHeader : String :=
  "Исправь ответ строго под JSON-схему.\nВерни только валидный JSON без пояснений.\n\n"

/-- `_build_repair_prompt` (router.py): schema definition, validation
diagnostics and the original invalid output, prefixed by the fixed header. -/
def buildRepairPrompt (schemaJson validationError invalidOutput : String) : String :=
  repairPromptHeader
    ++ "JSON schema:\n" ++ schemaJson
    ++ "\n\nValidation errors:\n" ++ validationError
    ++ "\n\nOriginal invalid output:\n" ++ invalidOutput

/-- `_parse_schema` (router.py): strip the optional markdown fence, validate,
and on failure raise `LLMResponseValidationError` carrying the repair prompt,
the call id, the original (unstripped) output and the diagnostics. -/
def parseSchema (schema : SchemaModel π) (outputText llmCallId : String) :
    Except LLMError π :=
  let normalized := stripMarkdownJsonFence outputText
  match schema.validate normalized with
  | .ok v => .ok v
  | .error ve =>
    .error (.responseValidation
      (buildRepairPrompt schema.jsonSchemaText ve outputText) llmCallId outputText ve)

/-! ### Audit persistence (`application/llm_audit.py`, `router.py`) -/

/-- `LLMCallAuditRecord` exactly as declared in `application/llm_audit.py`
(note: the dataclass declares no `task_type` field). `created_at` is an
abstract clock tick. -/
structure LLMCallAuditRecord where
  llm_call_id : String
  provider : LLMServiceProvider
  model : String
  prompt_hash : String
  status : String
  latency_ms : Option Int
  input_tokens : Option Nat
  output_tokens : Option Nat
  course_id : Option String
  module_id : Option String
  created_at : Nat
  output_hash : Option String := none
  output_length : Option Nat := none
  output_text : Option String := none
  validation_errors : Option String := none
deriving DecidableEq, Repr

/-- The field names accepted by the `LLMCallAuditRecord` dataclass
constructor (application/llm_audit.py, lines 15-32). -/
def llmCallAuditRecordFields : List String :=
  ["llm_call_id", "provider", "model", "prompt_hash", "status", "latency_ms",
   "input_tokens", "output_tokens", "course_id", "module_id", "created_at",
   "output_hash", "output_length", "output_text", "validation_errors"]

/-- The keyword-argument names `LLMRouter._persist_audit` passes to the
`LLMCallAuditRecord` constructor (router.py, lines 313-330). -/
def persistAuditRecordKwargs : List String :=
  ["llm_call_id", "task_type", "provider", "model", "prompt_hash", "status",
   "latency_ms", "input_tokens", "output_tokens", "course_id", "module_id",
   "output_hash", "output_length", "output_text", "validation_errors",
   "created_at"]

/-- Python call semantics: constructing a dataclass raises `TypeError` as
soon as some keyword argument is not a declared field. -/
def persistAuditCallOk : Bool :=
  persistAuditRecordKwargs.all (fun k => llmCallAuditRecordFields.contains k)

/-- `_truncate_text` (router.py): keep the value when within the limit,
otherwise keep the first `maxLength` characters and append the marker. -/
def truncateText (value : String) (maxLength : Nat) : String :=
  if value.length ≤ maxLength then value
  else ⟨value.data.take maxLength⟩ ++ "...[truncated]"

/-- `_should_store_llm_output_payload` (router.py): the raw environment value
(default `"1"`), stripped and lowercased, must not be one of
`{"0", "false", "no", "off"}`. -/
def shouldStoreLLMOutputPayload (envValue : Option String) : Bool :=
  let raw := asciiLower (pyStrip (envValue.getD "1"))
  ¬ (raw = "0" ∨ raw = "false" ∨ raw = "no" ∨ raw = "off")

/-- The output-related audit fields computed at the top of `_persist_audit`
(router.py, lines 300-311): hash and length always come from the full
untruncated output text; the raw output text and validation diagnostics are
stored only when the payload toggle is on, truncated to 16000 and 8000
characters. Returns `(output_hash, output_length, output_text,
validation_errors)` as stored on the record. -/
def auditOutputFields (h : String → String) (storePayload : Bool)
    (outputText validationErrors : Option String) :
    Option String × Option Nat × Option String × Option String :=
  let output_length := outputText.map String.length
  let output_hash := outputText.map h
  let stored_output_text :=
    if storePayload then outputText.map (fun t => truncateText t 16000) else none
  let stored_validation_errors :=
    if storePayload then validationErrors.map (fun t => truncateText t 8000) else none
  (output_hash, output_length, stored_output_text, stored_validation_errors)

/-! ### The router (`infrastructure/llm/router.py`) -/

/-- Injected collaborators and ambient state of one `LLMRouter.execute`
invocation: which provider clients are wired, the scripted behaviour of each
provider client per transport call (as in the repository's
`SequenceProvider` test double), the key store, whether the audit
unit-of-work write raises, the `PRAKTIKUM_LLM_AUDIT_STORE_OUTPUT`
environment value, the digest function, the generated call id, the
monotonic-clock readings and the wall-clock tick. -/
structure RouterEnv where
  providersConfigured : LLMServiceProvider → Bool
  generate : LLMServiceProvider → ProviderCallRequest → Nat → Except LLMError ProviderCallResponse
  keyStore : LLMServiceProvider → Option String
  auditSinkOk : Bool
  storeOutputEnv : Option String
  hashFn : String → String
  callId : String
  monoStart : ℚ
  monoEnd : ℚ
  nowTick : Nat

/-- Outcome of one `_persist_audit` call: the error it raised (if any) and
the records actually saved through the unit of work. -/
structure PersistResult where
  raised : Option LLMError
  saved : List LLMCallAuditRecord
deriving DecidableEq, Repr

/-- Arguments of `_persist_audit` that vary per call site. -/
structure PersistArgs where
  status : String
  latency_ms : Option Int
  input_tokens : Option Nat
  output_tokens : Option Nat
  output_text : Option String
  validation_errors : Option String

/-- `LLMRouter._persist_audit`: compute the derived output fields, construct
the `LLMCallAuditRecord` — which in the source passes a `task_type` keyword
the dataclass does not declare, so the construction raises `TypeError`
before the containment `try` block is entered — and otherwise write the
record through the unit of work, catching (and only logging) any storage
failure. -/
def persistAudit (env : RouterEnv) (route : TaskRoute) (req : LLMRequest π)
    (promptHash : String) (a : PersistArgs) : PersistResult :=
  let fields := auditOutputFields env.hashFn (shouldStoreLLMOutputPayload env.storeOutputEnv)
    a.output_text a.validation_errors
  if persistAuditCallOk then
    let record : LLMCallAuditRecord :=
      { llm_call_id := env.callId
        provider := route.provider
        model := route.model
        prompt_hash := promptHash
        status := a.status
        latency_ms := a.latency_ms
        input_tokens := a.input_tokens
        output_tokens := a.output_tokens
        course_id := req.course_id
        module_id := req.module_id
        created_at := env.nowTick
        output_hash := fields.1
        output_length := fields.2.1
        output_text := fields.2.2.1
        validation_errors := fields.2.2.2 }
    if env.auditSinkOk then ⟨none, [record]⟩ else ⟨none, []⟩
  else ⟨some (.pyTypeError "unexpected keyword argument task_type"), []⟩

/-- Effect trace of one `LLMRouter.execute` invocation. -/
structure ExecTrace (π : Type) where
  result : Except LLMError (LLMResponse π)
  transportCalls : Nat
  sleeps : List ℚ
  persistCalls : List PersistResult

/-- The audit records written during one invocation. -/
def ExecTrace.auditWritten (t : ExecTrace π) : List LLMCallAuditRecord :=
  t.persistCalls.flatMap (fun p => p.saved)

/-- `_build_provider_rejected_message` (router.py). -/
def buildProviderRejectedMessage (provider : LLMServiceProvider) (errorMessage : String) :
    String :=
  if provider = .openrouter
      ∧ containsSubstr (asciiLower errorMessage) "no endpoints found matching your data policy"
  then
    "OpenRouter отклонил запрос из-за privacy policy для выбранной модели. Откройте https://openrouter.ai/settings/privacy и включите Free model publication, либо укажите другую модель через PRAKTIKUM_OPENROUTER_MODEL."
  else "LLM-запрос отклонен провайдером. Проверьте модель и API ключ."

/-- The user-safe message of the provider-unavailable branch. -/
def providerUnavailableMessage : String :=
  "LLM сервис временно недоступен. Повторите попытку позже."

/-- The `except` chain of `LLMRouter.execute` for an exception `e` raised
while calling the provider under retry or validating the response
(`providerResponse` is the transport response when one was obtained).
Handlers in source order: `LLMResponseValidationError`; the retryable
transport tuple plus `LLMRetryExhaustedError` (translated to the user-safe
`LLMExecutionError`); `ProviderRequestError` (translated to
`LLMRequestRejectedError`).  Every handler first calls `_persist_audit`, so
an error raised there replaces the outcome; any other exception — notably
`ProviderResponseError` — propagates unchanged with no audit write. -/
def routerHandleError (env : RouterEnv) (route : TaskRoute) (req : LLMRequest π)
    (promptHash : String) (latency : Int) (tr : RunTrace ProviderCallResponse)
    (e : LLMError) (providerResponse : Option ProviderCallResponse) : ExecTrace π :=
  match e with
  | .responseValidation rp cid invalidOutput validationErrors =>
    let pr := persistAudit env route req promptHash
      { status := "schema_invalid"
        latency_ms := some latency
        input_tokens := providerResponse.bind (fun r => r.input_tokens)
        output_tokens := providerResponse.bind (fun r => r.output_tokens)
        output_text := some invalidOutput
        validation_errors := some validationErrors }
    match pr.raised with
    | some e2 => ⟨.error e2, tr.calls, tr.sleeps, [pr]⟩
    | none =>
      ⟨.error (.responseValidation rp cid invalidOutput validationErrors),
        tr.calls, tr.sleeps, [pr]⟩
  | .retryExhausted _ _ =>
    routerUnavailable env route req promptHash latency tr providerResponse
  | .providerRateLimitError _ =>
    routerUnavailable env route req promptHash latency tr providerResponse
  | .providerServerError _ =>
    routerUnavailable env route req promptHash latency tr providerResponse
  | .httpxTimeout _ =>
    routerUnavailable env route req promptHash latency tr providerResponse
  | .httpxTransportError _ =>
    routerUnavailable env route req promptHash latency tr providerResponse
  | .providerRequestError m =>
    let pr := persistAudit env route req promptHash
      { status := "provider_rejected"
        latency_ms := some latency
        input_tokens := providerResponse.bind (fun r => r.input_tokens)
        output_tokens := providerResponse.bind (fun r => r.output_tokens)
        output_text := providerResponse.map (fun r => r.output_text)
        validation_errors := none }
    match pr.raised with
    | some e2 => ⟨.error e2, tr.calls, tr.sleeps, [pr]⟩
    | none =>
      ⟨.error (.requestRejected (buildProviderRejectedMessage route.provider m)),
        tr.calls, tr.sleeps, [pr]⟩
  | other => ⟨.error other, tr.calls, tr.sleeps, []⟩
where
  /-- The shared `provider_unavailable` handler body. -/
  routerUnavailable (env : RouterEnv) (route : TaskRoute) (req : LLMRequest π)
      (promptHash : String) (latency : Int) (tr : RunTrace ProviderCallResponse)
      (providerResponse : Option ProviderCallResponse) : ExecTrace π :=
    let pr := persistAudit env route req promptHash
      { status := "provider_unavailable"
        latency_ms := some latency
        input_tokens := providerResponse.bind (fun r => r.input_tokens)
        output_tokens := providerResponse.bind (fun r => r.output_tokens)
        output_text := providerResponse.map (fun r => r.output_text)
        validation_errors := none }
    match pr.raised with
    | some e2 => ⟨.error e2, tr.calls, tr.sleeps, [pr]⟩
    | none =>
      ⟨.error (.executionError providerUnavailableMessage), tr.calls, tr.sleeps, [pr]⟩

/-- `LLMRouter.execute`: resolve the route, look up the provider client,
resolve the credential (`if not api_key`), compute the prompt hash, call the
provider under the retry executor, validate the output schema, always
attempt exactly one audit write for transport outcomes, and return the
validated response or the classified error. -/
def routerExecute (env : RouterEnv) (config : LLMRouterConfig) (req : LLMRequest π) :
    ExecTrace π :=
  match config.routes req.task_type with
  | none =>
    ⟨.error (.configurationError
      ("Route is not configured for task type " ++ req.task_type.value ++ ".")), 0, [], []⟩
  | some route =>
    if ¬ env.providersConfigured route.provider then
      ⟨.error (.configurationError
        ("Provider client is not configured: " ++ route.provider.value)), 0, [], []⟩
    else
      match env.keyStore route.provider with
      | none =>
        ⟨.error (.missingApiKey
          ("Missing API key for provider " ++ route.provider.value ++ ".")), 0, [], []⟩
      | some apiKey =>
        if apiKey = "" then
          ⟨.error (.missingApiKey
            ("Missing API key for provider " ++ route.provider.value ++ ".")), 0, [], []⟩
        else
          let promptHash := env.hashFn (promptHashInput req.system_prompt req.user_prompt)
          let pcr : ProviderCallRequest :=
            { model := route.model
              api_key := apiKey
              system_prompt := req.system_prompt
              user_prompt := req.user_prompt
              max_output_tokens := req.max_output_tokens
              temperature := req.temperature
              timeout_seconds := config.timeout_seconds }
          let tr := retryRun config.retry_policy (fun n => env.generate route.provider pcr n)
          let latency := computeLatencyMs env.monoStart env.monoEnd
          match tr.result with
          | .error e => routerHandleError env route req promptHash latency tr e none
          | .ok resp =>
            match parseSchema req.response_schema resp.output_text env.callId with
            | .error e => routerHandleError env route req promptHash latency tr e (some resp)
            | .ok parsed =>
              let pr := persistAudit env route req promptHash
                { status := "success"
                  latency_ms := some latency
                  input_tokens := resp.input_tokens
                  output_tokens := resp.output_tokens
                  output_text := some resp.output_text
                  validation_errors := none }
              match pr.raised with
              | some e2 => ⟨.error e2, tr.calls, tr.sleeps, [pr]⟩
              | none =>
                ⟨.ok
                  { llm_call_id := env.callId
                    provider := route.provider
                    model := route.model
                    prompt_hash := promptHash
                    latency_ms := latency
                    parsed := parsed
                    output_text := resp.output_text
                    input_tokens := resp.input_tokens
                    output_tokens := resp.output_tokens }, tr.calls, tr.sleeps, [pr]⟩

/-! ### Repair-loop orchestrators
(`application/course_decomposition.py`, `application/practice_generation.py`)

Both use cases drive an injected router port (`LLMRouterPort`) across a
bounded number of attempts.  The router port is modelled as a function of
the 1-based invocation index and the request, so hypotheses such as "every
Router invocation raises schema-invalid" quantify over the injected
behaviour.  `CoursePlanV1` (imported from `domain/course_plan.py`, absent
from the source tree) appears in the parse use case only as the validated
payload type, so the model is generic in it. -/

/-- Application-level failures raised by the use cases: `ValueError`,
`RuntimeError`, `AssertionError`, or an exception class the use case does
not catch, propagated unchanged. -/
inductive AppError where
  | valueError (msg : String)
  | runtimeError (msg : String)
  | assertionError (msg : String)
  | uncaught (e : LLMError)
deriving DecidableEq, Repr

/-- The user-facing message raised when no LLM API key is stored. -/
def missingKeyUserMessage : String :=
  "Не найден API-ключ LLM. Откройте «Ключи LLM...» и сохраните ключ."

/-- `CourseRawTextRecord` (course_decomposition.py). -/
structure CourseRawTextRecord where
  course_id : String
  raw_text_id : String
  content : String
  content_hash : String
  length : Nat
deriving Repr

/-- `ParseCourseCommand` (course_decomposition.py); `max_repair_attempts`
is an `int` in the source, so it is an `Int` here and the `< 0` guard is
kept. -/
structure ParseCourseCommand where
  course_id : String
  raw_text_id : Option String := none
  max_repair_attempts : Int := 2

/-- `ParseCourseResult` (course_decomposition.py), generic in the plan
payload type. -/
structure ParseCourseResult (π : Type) where
  course_id : String
  raw_text_id : String
  plan : π
  llm_call_id : String
  attempts : Nat
deriving Repr

/-- Collaborators of `ParseCourseUseCase` fixed at construction. -/
structure ParseCourseUseCaseDeps (π : Type) where
  system_prompt : String
  response_schema : SchemaModel π
  build_user_prompt : String → String
  build_repair_prompt : String → String → String

/-- Injected environment of one `ParseCourseUseCase.execute` call: the raw
text lookup, the router port behaviour by invocation index, and the
generated correlation id. -/
structure ParseEnv (π : Type) where
  rawText : Option CourseRawTextRecord
  router : Nat → LLMRequest π → Except LLMError (LLMResponse π)
  correlationId : String

/-- Effect trace of one use-case execution: the outcome, the number of
router invocations, and the user prompt of each invocation in order. -/
structure LoopTrace (ρ : Type) where
  result : Except AppError ρ
  routerCalls : Nat
  promptsUsed : List String
deriving Repr

/-- The terminal user-facing message of the course-parse repair loop. -/
def parseCourseFailMessage : String :=
  "Не удалось сформировать корректный план курса. Уточните текст курса и попробуйте снова."

/-- The `LLMRequest` built by `ParseCourseUseCase.execute` for one attempt. -/
def parseCourseRequest (deps : ParseCourseUseCaseDeps π) (env : ParseEnv π)
    (cmd : ParseCourseCommand) (prompt : String) : LLMRequest π :=
  { task_type := .course_parse
    system_prompt := deps.system_prompt
    user_prompt := prompt
    response_schema := deps.response_schema
    correlation_id := env.correlationId
    course_id := some cmd.course_id
    module_id := none
    max_output_tokens := 4096
    temperature := 1/10 }

/-- The `for attempt_index in range(max_attempts)` loop of
`ParseCourseUseCase.execute`.  `fuel` is the number of remaining loop
iterations, so the guard `attempt_number >= max_attempts` is `fuel = 1`,
and `fuel = 0` is the `AssertionError` after the loop.  The `except`
chain mirrors the source order: `MissingApiKeyLLMError`,
`LLMRequestRejectedError`, `LLMTemporaryError`, `LLMResponseSchemaError`;
any other exception propagates. -/
def parseCourseLoop (deps : ParseCourseUseCaseDeps π) (env : ParseEnv π)
    (cmd : ParseCourseCommand) (raw : CourseRawTextRecord) :
    (prompt : String) → (attemptNumber : Nat) → (fuel : Nat) →
      LoopTrace (ParseCourseResult π)
  | _, _, 0 => ⟨.error (.assertionError "Unreachable parse loop termination"), 0, []⟩
  | prompt, attemptNumber, fuel + 1 =>
    match env.router attemptNumber (parseCourseRequest deps env cmd prompt) with
    | .ok resp =>
      ⟨.ok { course_id := cmd.course_id
             raw_text_id := raw.raw_text_id
             plan := resp.parsed
             llm_call_id := resp.llm_call_id
             attempts := attemptNumber }, 1, [prompt]⟩
    | .error e =>
      if e.isMissingApiKeyClass then
        ⟨.error (.valueError missingKeyUserMessage), 1, [prompt]⟩
      else if e.isRequestRejectedClass then
        ⟨.error (.valueError e.message), 1, [prompt]⟩
      else if e.isTemporaryClass then
        ⟨.error (.valueError e.message), 1, [prompt]⟩
      else
        match e with
        | .responseValidation _ _ invalidOutput validationErrors =>
          if fuel = 0 then
            ⟨.error (.valueError parseCourseFailMessage), 1, [prompt]⟩
          else
            let t := parseCourseLoop deps env cmd raw
              (deps.build_repair_prompt invalidOutput validationErrors)
              (attemptNumber + 1) fuel
            ⟨t.result, t.routerCalls + 1, prompt :: t.promptsUsed⟩
        | other => ⟨.error (.uncaught other), 1, [prompt]⟩

/-- `ParseCourseUseCase.execute` (course_decomposition.py). -/
def parseCourseExecute (deps : ParseCourseUseCaseDeps π) (env : ParseEnv π)
    (cmd : ParseCourseCommand) : LoopTrace (ParseCourseResult π) :=
  if cmd.course_id = "" then ⟨.error (.valueError "course_id is required"), 0, []⟩
  else if cmd.max_repair_attempts < 0 then
    ⟨.error (.valueError "max_repair_attempts must be >= 0"), 0, []⟩
  else
    match env.rawText with
    | none =>
      ⟨.error (.valueError "Не удалось найти импортированный текст выбранного курса."),
        0, []⟩
    | some raw =>
      let maxAttempts := (cmd.max_repair_attempts + 1).toNat
      parseCourseLoop deps env cmd raw (deps.build_user_prompt raw.content) 1 maxAttempts

/-! #### Practice generation -/

/-- `PracticeDifficulty` (domain/practice.py). -/
inductive PracticeDifficulty where
  | easy
  | medium
  | hard
deriving DecidableEq, Repr

/-- `PracticeGenerationCandidateV1` (domain/practice.py), by its two payload
fields used in the use case. -/
structure PracticeGenerationCandidateV1 where
  statement : String
  expected_outline : String
deriving DecidableEq, Repr

/-- `PracticeGenerationV1` (domain/practice.py), by the field the use case
reads. -/
structure PracticeGenerationV1 where
  candidates : List PracticeGenerationCandidateV1
deriving DecidableEq, Repr

/-- `PracticeTaskDraft` (practice_generation.py). -/
structure PracticeTaskDraft where
  candidate_index : Nat
  statement : String
  expected_outline : String
deriving DecidableEq, Repr

/-- `PracticeModuleContext` (practice_generation.py). -/
structure PracticeModuleContext where
  module_id : String
  course_id : String
  course_title : Option String
  module_title : String
  module_order : Nat
  goals : List String
  topics : List String
  estimated_hours : Option Nat
deriving Repr

/-- `PracticeTask` (domain/practice.py), by the fields the result carries. -/
structure PracticeTask where
  id : String
  statement : String
deriving DecidableEq, Repr

/-- `GeneratePracticeCommand` (practice_generation.py). -/
structure GeneratePracticeCommand where
  module_id : String
  difficulty : PracticeDifficulty
  candidate_count : Nat := 3
  max_repair_attempts : Int := 2

/-- `GeneratePracticeResult` (practice_generation.py). -/
structure GeneratePracticeResult where
  course_id : String
  module_id : String
  generated_count : Nat
  history_count : Nat
  current_task : PracticeTask
  llm_call_id : String
  attempts : Nat
deriving Repr

/-- Collaborators of `GeneratePracticeUseCase` fixed at construction.
`build_repair_prompt` takes `invalid_output`, `validation_errors` and
`candidate_count`. -/
structure PracticeUseCaseDeps where
  system_prompt : String
  response_schema : SchemaModel PracticeGenerationV1
  build_user_prompt : PracticeModuleContext → PracticeDifficulty → Nat → String
  build_repair_prompt : String → String → Nat → String

/-- Injected environment of one `GeneratePracticeUseCase.execute` call:
module context lookup, router port behaviour, and the persistence
unit-of-work behaviour after a successful batch. -/
structure PracticeEnv where
  moduleContext : Option PracticeModuleContext
  router : Nat → LLMRequest PracticeGenerationV1 →
    Except LLMError (LLMResponse PracticeGenerationV1)
  correlationId : String
  persistRaises : Option AppError
  savedTasks : List PracticeTaskDraft → List PracticeTask
  currentAfterSave : Option PracticeTask
  historyAfterSave : List PracticeTask

/-- `_build_candidate_drafts` (practice_generation.py): `None` when fewer
candidates than requested were returned; otherwise the first
`candidate_count` candidates with `candidate_index` starting at 1. -/
def buildCandidateDrafts (response : LLMResponse PracticeGenerationV1)
    (candidateCount : Nat) : Option (List PracticeTaskDraft) :=
  if response.parsed.candidates.length < candidateCount then none
  else
    some ((response.parsed.candidates.take candidateCount).enum.map
      (fun ic => ⟨ic.1 + 1, ic.2.statement, ic.2.expected_outline⟩))

/-- The shortfall diagnostic fed to the repair prompt
(practice_generation.py, lines 330-334). -/
def insufficientCandidatesMessage (expected got : Nat) : String :=
  "Модель вернула недостаточно кандидатов: ожидалось " ++ toString expected
    ++ ", получено " ++ toString got ++ "."

/-- The terminal user-facing message of the candidate-shortfall branch. -/
def practiceShortfallFailMessage : String :=
  "Не удалось получить нужное количество вариантов практики. Попробуйте снова."

/-- The terminal user-facing message of the practice schema-repair loop. -/
def practiceSchemaFailMessage : String :=
  "Не удалось сформировать корректное практическое задание. Попробуйте снова позже."

/-- The `LLMRequest` built by `GeneratePracticeUseCase.execute` for one
attempt. -/
def practiceRequest (deps : PracticeUseCaseDeps) (env : PracticeEnv)
    (ctx : PracticeModuleContext) (cmd : GeneratePracticeCommand) (prompt : String) :
    LLMRequest PracticeGenerationV1 :=
  { task_type := .practice_gen
    system_prompt := deps.system_prompt
    user_prompt := prompt
    response_schema := deps.response_schema
    correlation_id := env.correlationId
    course_id := some ctx.course_id
    module_id := some cmd.module_id
    max_output_tokens := 4096
    temperature := 3/10 }

/-- Trace of one practice-generation execution: additionally records each
batch of drafts handed to `save_generated_batch`. -/
structure PracticeTrace where
  result : Except AppError GeneratePracticeResult
  routerCalls : Nat
  promptsUsed : List String
  persistedBatches : List (List PracticeTaskDraft)
deriving Repr

/-- The attempt loop of `GeneratePracticeUseCase.execute`, with the same
fuel discipline as `parseCourseLoop`.  After a structurally valid response,
`_build_candidate_drafts` checks the candidate count: a shortfall feeds the
repair loop exactly like a schema failure (terminal only when attempts are
exhausted); otherwise the drafts are persisted and the result assembled. -/
def practiceLoop (deps : PracticeUseCaseDeps) (env : PracticeEnv)
    (cmd : GeneratePracticeCommand) (ctx : PracticeModuleContext) :
    (prompt : String) → (attemptNumber : Nat) → (fuel : Nat) → PracticeTrace
  | _, _, 0 =>
    ⟨.error (.assertionError "Unreachable practice generation loop termination"), 0, [], []⟩
  | prompt, attemptNumber, fuel + 1 =>
    match env.router attemptNumber (practiceRequest deps env ctx cmd prompt) with
    | .ok resp =>
      match buildCandidateDrafts resp cmd.candidate_count with
      | none =>
        if fuel = 0 then
          ⟨.error (.valueError practiceShortfallFailMessage), 1, [prompt], []⟩
        else
          let nextPrompt := deps.build_repair_prompt resp.output_text
            (insufficientCandidatesMessage cmd.candidate_count
              resp.parsed.candidates.length)
            cmd.candidate_count
          let t := practiceLoop deps env cmd ctx nextPrompt (attemptNumber + 1) fuel
          ⟨t.result, t.routerCalls + 1, prompt :: t.promptsUsed, t.persistedBatches⟩
      | some drafts =>
        match env.persistRaises with
        | some persistErr =>
          -- the persistence exception is logged and re-raised unchanged
          ⟨.error persistErr, 1, [prompt], [drafts]⟩
        | none =>
          match env.currentAfterSave with
          | none =>
            ⟨.error (.runtimeError "Persisted practice task is missing after save operation."),
              1, [prompt], [drafts]⟩
          | some cur =>
            ⟨.ok { course_id := ctx.course_id
                   module_id := cmd.module_id
                   generated_count := (env.savedTasks drafts).length
                   history_count := env.historyAfterSave.length
                   current_task := cur
                   llm_call_id := resp.llm_call_id
                   attempts := attemptNumber }, 1, [prompt], [drafts]⟩
    | .error e =>
      if e.isMissingApiKeyClass then
        ⟨.error (.valueError missingKeyUserMessage), 1, [prompt], []⟩
      else if e.isRequestRejectedClass then
        ⟨.error (.valueError e.message), 1, [prompt], []⟩
      else if e.isTemporaryClass then
        ⟨.error (.valueError e.message), 1, [prompt], []⟩
      else
        match e with
        | .responseValidation _ _ invalidOutput validationErrors =>
          if fuel = 0 then
            ⟨.error (.valueError practiceSchemaFailMessage), 1, [prompt], []⟩
          else
            let t := practiceLoop deps env cmd ctx
              (deps.build_repair_prompt invalidOutput validationErrors cmd.candidate_count)
              (attemptNumber + 1) fuel
            ⟨t.result, t.routerCalls + 1, prompt :: t.promptsUsed, t.persistedBatches⟩
        | other => ⟨.error (.uncaught other), 1, [prompt], []⟩

/-- `GeneratePracticeUseCase.execute` (practice_generation.py). -/
def practiceExecute (deps : PracticeUseCaseDeps) (env : PracticeEnv)
    (cmd : GeneratePracticeCommand) : PracticeTrace :=
  if cmd.module_id = "" then ⟨.error (.valueError "module_id is required"), 0, [], []⟩
  else if cmd.candidate_count < 1 then
    ⟨.error (.valueError "candidate_count must be >= 1"), 0, [], []⟩
  else if cmd.max_repair_attempts < 0 then
    ⟨.error (.valueError "max_repair_attempts must be >= 0"), 0, [], []⟩
  else
    match env.moduleContext with
    | none =>
      ⟨.error (.valueError "Не удалось найти выбранный модуль для генерации практики."),
        0, [], []⟩
    | some ctx =>
      let maxAttempts := (cmd.max_repair_attempts + 1).toNat
      practiceLoop deps env cmd ctx
        (deps.build_user_prompt ctx cmd.difficulty cmd.candidate_count) 1 maxAttempts

/-! ## Shared helper facts -/

/-- Is an `Except` value a success? -/
def exceptIsOk : Except ε α → Bool
  | .ok _ => true
  | .error _ => false

/-- The `task_type` keyword of `_persist_audit` is not among the declared
`LLMCallAuditRecord` dataclass fields. -/
theorem persistAuditCallOk_eq_false : persistAuditCallOk = false := by decide

/-- Every `_persist_audit` invocation therefore raises the `TypeError` and
saves nothing. -/
theorem persistAudit_raises (env : RouterEnv) (route : TaskRoute)
    (req : LLMRequest π) (promptHash : String) (a : PersistArgs) :
    persistAudit env route req promptHash a =
      ⟨some (.pyTypeError "unexpected keyword argument task_type"), []⟩ := by
  unfold persistAudit
  rw [persistAuditCallOk_eq_false]
  simp

/-! ## C3 — retry executor backoff schedule and exhaustion -/

/-- The retry policy of the claim: `maxAttempts=3, baseDelay=0.1,
multiplier=2.0` (and the source default `maxDelay=2.0`). -/
def c3Policy : RetryPolicy := ⟨3, 1/10, 2, 2⟩

/-- An operation failing on the first two calls and succeeding on the
third. -/
def twoFailThenOk (e1 e2 : LLMError) (v : Nat) : Nat → Except LLMError Nat :=
  fun n => if n = 1 then .error e1 else if n = 2 then .error e2 else .ok v

/-- An operation failing on all three calls. -/
def threeFail (e1 e2 e3 : LLMError) : Nat → Except LLMError Nat :=
  fun n => if n = 1 then .error e1 else if n = 2 then .error e2 else .error e3

set_option linter.unnecessarySeqFocus false in
/-- C3: with `maxAttempts=3, baseDelay=0.1, multiplier=2.0`, two whitelisted
transient failures followed by success return the success after exactly 3
operation calls with sleeps exactly `[0.1, 0.2]`, each equal to
`min(maxDelay, baseDelay * multiplier^(attempt-1))`; three transient
failures raise retry-exhausted with `attempts = 3` wrapping the last
error. -/
theorem retryExecutor_backoff_schedule (e1 e2 e3 : LLMError) (v : Nat)
    (h1 : isRetryableLLMError e1 = true) (h2 : isRetryableLLMError e2 = true)
    (h3 : isRetryableLLMError e3 = true) :
    (retryRun c3Policy (twoFailThenOk e1 e2 v)).result = .ok v ∧
    (retryRun c3Policy (twoFailThenOk e1 e2 v)).calls = 3 ∧
    (retryRun c3Policy (twoFailThenOk e1 e2 v)).sleeps = [1/10, 1/5] ∧
    (retryRun c3Policy (twoFailThenOk e1 e2 v)).sleeps =
      [backoffDelay c3Policy 1, backoffDelay c3Policy 2] ∧
    (retryRun c3Policy (threeFail e1 e2 e3)).result = .error (.retryExhausted 3 e3) ∧
    (retryRun c3Policy (threeFail e1 e2 e3)).calls = 3 := by
  have hb1 : backoffDelay c3Policy 1 = 1/10 := by
    simp [backoffDelay, c3Policy]
    norm_num
  have hb2 : backoffDelay c3Policy 2 = 1/5 := by
    simp [backoffDelay, c3Policy]
    norm_num
  refine ⟨?_, ?_, ?_, ?_, ?_, ?_⟩ <;>
    simp [retryRun, retryRunGo, twoFailThenOk, threeFail, c3Policy, h1, h2, h3, hb1, hb2,
      backoffDelay] <;>
    constructor <;> norm_num

/-- C3 witness: the schedule at rate-limit / server-error / timeout
errors. -/
theorem retryExecutor_backoff_schedule_witness :
    (retryRun c3Policy
        (twoFailThenOk (.providerRateLimitError "429") (.providerServerError "500") 7)).result
      = .ok 7 ∧
    (retryRun c3Policy
        (twoFailThenOk (.providerRateLimitError "429") (.providerServerError "500") 7)).calls
      = 3 ∧
    (retryRun c3Policy
        (twoFailThenOk (.providerRateLimitError "429") (.providerServerError "500") 7)).sleeps
      = [1/10, 1/5] ∧
    (retryRun c3Policy
        (twoFailThenOk (.providerRateLimitError "429") (.providerServerError "500") 7)).sleeps
      = [backoffDelay c3Policy 1, backoffDelay c3Policy 2] ∧
    (retryRun c3Policy
        (threeFail (.providerRateLimitError "429") (.providerServerError "500")
          (.httpxTimeout "timeout"))).result
      = .error (.retryExhausted 3 (.httpxTimeout "timeout")) ∧
    (retryRun c3Policy
        (threeFail (.providerRateLimitError "429") (.providerServerError "500")
          (.httpxTimeout "timeout"))).calls = 3 :=
  retryExecutor_backoff_schedule (.providerRateLimitError "429") (.providerServerError "500")
    (.httpxTimeout "timeout") 7 (by decide) (by decide) (by decide)

/-! ## C4 — fail-fast routing-policy validation -/

/-- `validateRoutingPolicyGo` succeeds exactly when every task type in the
checked list is routed to its policy-mandated provider. -/
theorem validateRoutingPolicyGo_ok_iff (routes : LLMTaskType → Option TaskRoute) :
    ∀ ts : List LLMTaskType,
      validateRoutingPolicyGo routes ts = .ok () ↔
        ∀ t ∈ ts, ∃ r, routes t = some r ∧ r.provider = expectedProviderByTask t := by
  intro ts
  induction ts with
  | nil => simp [validateRoutingPolicyGo]
  | cons t ts ih =>
    constructor
    · intro h
      intro u hu
      rcases List.mem_cons.mp hu with hu | hu
      · subst hu
        unfold validateRoutingPolicyGo at h
        cases hr : routes u with
        | none => rw [hr] at h; exact absurd h (by simp)
        | some r =>
          rw [hr] at h
          by_cases hp : r.provider = expectedProviderByTask u
          · exact ⟨r, rfl, hp⟩
          · simp [hp] at h
      · unfold validateRoutingPolicyGo at h
        cases hr : routes t with
        | none => rw [hr] at h; exact absurd h (by simp)
        | some r =>
          rw [hr] at h
          by_cases hp : r.provider = expectedProviderByTask t
          · simp [hp] at h
            exact (ih.mp h) u hu
          · simp [hp] at h
    · intro h
      unfold validateRoutingPolicyGo
      obtain ⟨r, hr, hp⟩ := h t (List.mem_cons_self t ts)
      rw [hr]
      simp [hp]
      exact ih.mpr (fun u hu => h u (List.mem_cons_of_mem t hu))

/-- Any failure of `validateRoutingPolicyGo` is a configuration error. -/
theorem validateRoutingPolicyGo_error_configuration
    (routes : LLMTaskType → Option TaskRoute) :
    ∀ (ts : List LLMTaskType) (e : LLMError),
      validateRoutingPolicyGo routes ts = .error e →
        ∃ m, e = .configurationError m := by
  intro ts
  induction ts with
  | nil => intro e h; simp [validateRoutingPolicyGo] at h
  | cons t ts ih =>
    intro e h
    unfold validateRoutingPolicyGo at h
    cases hr : routes t with
    | none =>
      rw [hr] at h
      exact ⟨_, (Except.error.injEq _ _).mp h.symm⟩
    | some r =>
      rw [hr] at h
      by_cases hp : r.provider = expectedProviderByTask t
      · simp [hp] at h
        exact ih e h
      · simp [hp] at h
        exact ⟨_, h.symm⟩

/-- C4: a router can be constructed from a config exactly when every task
type is routed to the policy-mandated provider (course-parse and
practice-grade to Anthropic, practice-gen and curator-msg to OpenRouter);
any missing route or wrong provider makes construction fail with the
configuration error, so every successfully constructed router resolves
every task type to the mandated provider. -/
theorem router_construction_policy_iff (config : LLMRouterConfig) :
    (exceptIsOk (mkLLMRouter config) = true ↔
      ∀ t, ∃ r, config.routes t = some r ∧ r.provider = expectedProviderByTask t) ∧
    (exceptIsOk (mkLLMRouter config) = false →
      ∃ m, mkLLMRouter config = .error (.configurationError m)) := by
  constructor
  · constructor
    · intro h t
      have hv : validateRoutingPolicy config.routes = .ok () := by
        unfold mkLLMRouter at h
        cases hv2 : validateRoutingPolicy config.routes with
        | error e => rw [hv2] at h; simp [exceptIsOk] at h
        | ok u => rfl
      have := (validateRoutingPolicyGo_ok_iff config.routes policyTaskOrder).mp hv
      exact this t (by cases t <;> simp [policyTaskOrder])
    · intro h
      have hv : validateRoutingPolicy config.routes = .ok () :=
        (validateRoutingPolicyGo_ok_iff config.routes policyTaskOrder).mpr
          (fun t _ => h t)
      unfold mkLLMRouter
      rw [hv]
      rfl
  · intro h
    unfold mkLLMRouter at h ⊢
    cases hv : validateRoutingPolicy config.routes with
    | ok u => rw [hv] at h; simp [exceptIsOk] at h
    | error e =>
      obtain ⟨m, hm⟩ :=
        validateRoutingPolicyGo_error_configuration config.routes policyTaskOrder e
          (by unfold validateRoutingPolicy at hv; exact hv)
      subst hm
      exact ⟨m, rfl⟩

/-- C4 witness: the default routes pass construction. -/
theorem router_construction_policy_iff_witness :
    exceptIsOk (mkLLMRouter { routes := defaultRoutes none none }) = true :=
  (router_construction_policy_iff { routes := defaultRoutes none none }).1.mpr
    (fun t => by cases t <;> exact ⟨_, rfl, rfl⟩)

/-! ## C8 — the prompt hash as a function of the prompt pair -/

/-- C8 counterexample: two distinct (system, user) prompt pairs whose hash
inputs — system prompt, separator `"\n---\n"`, user prompt — are byte-equal,
so the computed hashes coincide for any digest function, refuting
"changing either prompt changes the hash". -/
theorem promptHash_pair_collision :
    promptHashInput "a\n---\nb" "c" = promptHashInput "a" "b\n---\nc" ∧
      ¬ ("a\n---\nb" = "a" ∧ "c" = "b\n---\nc") := by
  constructor
  · rfl
  · intro h
    exact absurd h.1 (by decide)

/-- C8 (amended): the prompt hash is a pure function of the pair through the
concatenation `system ++ "\n---\n" ++ user`: for an injective digest, two
invocations hash equal exactly when their concatenated hash inputs are
equal.  Identical pairs therefore always produce identical hashes, but
distinct pairs with equal concatenations collide. -/
theorem promptHash_concatenation_characterization (h : String → String)
    (hinj : Function.Injective h) (s1 u1 s2 u2 : String) :
    computePromptHash h s1 u1 = computePromptHash h s2 u2 ↔
      promptHashInput s1 u1 = promptHashInput s2 u2 :=
  ⟨fun he => hinj he, fun he => congrArg h he⟩

/-- C8 witness: with the identity digest, the colliding pairs of the
counterexample indeed hash equal. -/
theorem promptHash_concatenation_characterization_witness :
    computePromptHash id "a\n---\nb" "c" = computePromptHash id "a" "b\n---\nc" :=
  (promptHash_concatenation_characterization id (fun _ _ hx => hx)
    "a\n---\nb" "c" "a" "b\n---\nc").mpr rfl

/-! ## C10 — audit output hash/length vs. the storage toggle -/

/-- C10: for a non-null output text, the audit fields carry the digest of
the full untruncated output and its full character length regardless of the
storage toggle; the raw output text and validation diagnostics are stored
only when the toggle is on, truncated to at most 16000 and 8000 characters
with the `"...[truncated]"` marker appended. -/
theorem auditOutputFields_hash_length_toggle (h : String → String) (store : Bool)
    (t v : String) :
    (auditOutputFields h store (some t) (some v)).1 = some (h t) ∧
    (auditOutputFields h store (some t) (some v)).2.1 = some t.length ∧
    (auditOutputFields h store (some t) (some v)).2.2.1 =
      (if store then some (truncateText t 16000) else none) ∧
    (auditOutputFields h store (some t) (some v)).2.2.2 =
      (if store then some (truncateText v 8000) else none) ∧
    (t.length ≤ 16000 → truncateText t 16000 = t) ∧
    (16000 < t.length →
      truncateText t 16000 = String.mk (t.data.take 16000) ++ "...[truncated]") ∧
    (v.length ≤ 8000 → truncateText v 8000 = v) ∧
    (8000 < v.length →
      truncateText v 8000 = String.mk (v.data.take 8000) ++ "...[truncated]") := by
  refine ⟨rfl, rfl, ?_, ?_, ?_, ?_, ?_, ?_⟩
  · cases store <;> rfl
  · cases store <;> rfl
  · intro hle; simp [truncateText, hle]
  · intro hlt; simp [truncateText, Nat.not_le.mpr hlt]
  · intro hle; simp [truncateText, hle]
  · intro hlt; simp [truncateText, Nat.not_le.mpr hlt]

/-- C10 witness: with the toggle off, hash and length are still recorded
while the raw payload fields are absent. -/
theorem auditOutputFields_hash_length_toggle_witness :
    (auditOutputFields id false (some "output") (some "diag")).1 = some "output" ∧
    (auditOutputFields id false (some "output") (some "diag")).2.1 = some 6 ∧
    (auditOutputFields id false (some "output") (some "diag")).2.2.1 = none ∧
    (auditOutputFields id false (some "output") (some "diag")).2.2.2 = none := by
  have h := auditOutputFields_hash_length_toggle id false "output" "diag"
  exact ⟨h.1, h.2.1, h.2.2.1, h.2.2.2.1⟩

/-! ## Demo environments for concrete router scenarios -/

/-- A response schema accepting any output (a permissive pydantic model). -/
def demoSchemaAcceptAll : SchemaModel Unit :=
  ⟨fun _ => .ok (), "demo-schema"⟩

/-- The default router configuration with no environment overrides. -/
def demoConfig : LLMRouterConfig := { routes := defaultRoutes none none }

/-- A course-parse request, mirroring the repository's router tests. -/
def demoRequest : LLMRequest Unit :=
  { task_type := .course_parse
    system_prompt := "Return JSON."
    user_prompt := "Input payload"
    response_schema := demoSchemaAcceptAll
    correlation_id := "corr-1"
    course_id := some "course-1" }

/-- An environment where both providers are wired, keys exist, the provider
answers successfully on every call, and the audit store accepts writes. -/
def demoEnvSuccess : RouterEnv :=
  { providersConfigured := fun _ => true
    generate := fun _ _ _ => .ok ⟨"ok-output", some 12, some 4⟩
    keyStore := fun _ => some "anthropic-key"
    auditSinkOk := true
    storeOutputEnv := none
    hashFn := fun s => s
    callId := "call-1"
    monoStart := 0
    monoEnd := 1
    nowTick := 0 }

/-- The success environment with an empty key store. -/
def demoEnvNoKey : RouterEnv :=
  { demoEnvSuccess with keyStore := fun _ => none }

/-- The success environment with a provider whose 2xx body has a malformed
shape, raising `ProviderResponseError` on every call. -/
def demoEnvShapeError : RouterEnv :=
  { demoEnvSuccess with
      generate := fun _ _ _ =>
        .error (.providerResponseError "anthropic response is missing content array.") }

/-! ## C5 — missing credential: fail before transport, write no audit -/

/-- C5: when the key store returns no key (or a falsy empty key) for the
routed provider, `execute` raises the missing-credential error, performs
zero transport calls, and never reaches `_persist_audit`. -/
theorem missing_credential_before_transport (env : RouterEnv)
    (config : LLMRouterConfig) (req : LLMRequest π) (route : TaskRoute)
    (hroute : config.routes req.task_type = some route)
    (hprov : env.providersConfigured route.provider = true)
    (hkey : env.keyStore route.provider = none ∨ env.keyStore route.provider = some "") :
    (routerExecute env config req).result =
        .error (.missingApiKey ("Missing API key for provider "
          ++ route.provider.value ++ ".")) ∧
      (routerExecute env config req).transportCalls = 0 ∧
      (routerExecute env config req).persistCalls = [] := by
  unfold routerExecute
  rw [hroute]
  rcases hkey with hk | hk <;> simp [hprov, hk]

/-- C5 witness: the default course-parse route with an empty key store. -/
theorem missing_credential_before_transport_witness :
    (routerExecute demoEnvNoKey demoConfig demoRequest).result =
        .error (.missingApiKey "Missing API key for provider anthropic.") ∧
      (routerExecute demoEnvNoKey demoConfig demoRequest).transportCalls = 0 ∧
      (routerExecute demoEnvNoKey demoConfig demoRequest).persistCalls = [] :=
  missing_credential_before_transport demoEnvNoKey demoConfig demoRequest
    ⟨.anthropic, defaultAnthropicModel⟩ rfl rfl (Or.inl rfl)

/-! ## C1 — the audit write path (code defect) -/

/-- C1 (code defect): `_persist_audit` passes a `task_type` keyword that the
`LLMCallAuditRecord` dataclass does not declare, so the record construction
raises `TypeError` outside the containment `try` block.  At a concrete
invocation whose provider call succeeds and whose audit store is healthy,
the router therefore writes zero audit records and the `TypeError`
propagates to the caller in place of the success response — contradicting
one-record-per-invocation, status matching, and audit-failure containment
(and the repository's own router tests). -/
theorem audit_record_construction_defect :
    persistAuditCallOk = false ∧
    (routerExecute demoEnvSuccess demoConfig demoRequest).result =
      .error (.pyTypeError "unexpected keyword argument task_type") ∧
    (routerExecute demoEnvSuccess demoConfig demoRequest).auditWritten = [] ∧
    (routerExecute demoEnvSuccess demoConfig demoRequest).transportCalls = 1 := by
  refine ⟨persistAuditCallOk_eq_false, ?_, ?_, ?_⟩ <;> rfl

/-! ## C2 — error translation at the router boundary -/

/-- C2 counterexample: when the transport client raises the response-shape
error (`ProviderResponseError`, e.g. a 2xx body with a missing content
array), no `except` clause of `execute` matches it — it is neither retried
nor translated, escapes as-is to the caller, and is not one of the five
caller-visible taxonomy kinds. -/
theorem responseShape_error_escapes_untranslated :
    (routerExecute demoEnvShapeError demoConfig demoRequest).result =
      .error (.providerResponseError "anthropic response is missing content array.") ∧
    LLMError.isCallerVisibleTaxonomy
      (.providerResponseError "anthropic response is missing content array.") = false ∧
    (routerExecute demoEnvShapeError demoConfig demoRequest).persistCalls = [] := by
  refine ⟨?_, rfl, ?_⟩ <;> rfl

/-- The `except` chain classification: any error leaving
`routerHandleError` is a caller-visible taxonomy kind, an untranslated
response-shape error, or the audit-construction `TypeError`. -/
theorem routerHandleError_error_kinds (env : RouterEnv) (route : TaskRoute)
    (req : LLMRequest π) (promptHash : String) (latency : Int)
    (tr : RunTrace ProviderCallResponse) (e : LLMError)
    (presp : Option ProviderCallResponse) (e2 : LLMError)
    (h : (routerHandleError env route req promptHash latency tr e presp).result = .error e2) :
    e2.isCallerVisibleTaxonomy = true ∨ (∃ m, e2 = .providerResponseError m) ∨
      (∃ m, e2 = .pyTypeError m) := by
  cases e <;>
    simp [routerHandleError, routerHandleError.routerUnavailable, persistAudit_raises] at h <;>
    subst h <;>
    simp [LLMError.isCallerVisibleTaxonomy]

/-- C2 (amended): every error `LLMRouter.execute` raises to its caller is
either one of the caller-visible taxonomy kinds (configuration,
missing-credential, provider-rejected, provider-unavailable,
schema-invalid), or a provider response-shape error propagated
untranslated, or the audit-construction `TypeError` of the C1 defect; in
particular no rate-limit, server-error, timeout, connection or
retry-exhausted error ever escapes raw. -/
theorem routerExecute_error_kinds (env : RouterEnv) (config : LLMRouterConfig)
    (req : LLMRequest π) (e : LLMError)
    (h : (routerExecute env config req).result = .error e) :
    e.isCallerVisibleTaxonomy = true ∨ (∃ m, e = .providerResponseError m) ∨
      (∃ m, e = .pyTypeError m) := by
  simp only [routerExecute] at h
  split at h
  · -- unmapped route: configuration error
    have he := Except.error.inj h
    subst he
    simp [LLMError.isCallerVisibleTaxonomy]
  · split at h
    · -- provider client not wired: configuration error
      have he := Except.error.inj h
      subst he
      simp [LLMError.isCallerVisibleTaxonomy]
    · split at h
      · -- no key: missing credential
        have he := Except.error.inj h
        subst he
        simp [LLMError.isCallerVisibleTaxonomy]
      · split at h
        · -- empty key: missing credential
          have he := Except.error.inj h
          subst he
          simp [LLMError.isCallerVisibleTaxonomy]
        · split at h
          · -- transport-phase exception: the except chain
            exact routerHandleError_error_kinds _ _ _ _ _ _ _ _ _ h
          · split at h
            · -- schema validation failure: the except chain
              exact routerHandleError_error_kinds _ _ _ _ _ _ _ _ _ h
            · -- success path: the audit write raises the TypeError
              rw [persistAudit_raises] at h
              split at h
              · rename_i e2 he2
                have he := Except.error.inj h
                subst he
                exact Or.inr (Or.inr ⟨_, (Option.some.inj he2).symm⟩)
              · exact absurd h (by simp)

/-- C2 witness: the classification applied to the concrete escaped
response-shape error. -/
theorem routerExecute_error_kinds_witness :
    (LLMError.providerResponseError
        "anthropic response is missing content array.").isCallerVisibleTaxonomy = true ∨
      (∃ m, LLMError.providerResponseError "anthropic response is missing content array."
        = .providerResponseError m) ∨
      (∃ m, LLMError.providerResponseError "anthropic response is missing content array."
        = .pyTypeError m) :=
  routerExecute_error_kinds demoEnvShapeError demoConfig demoRequest
    (.providerResponseError "anthropic response is missing content array.") rfl

/-! ## C6 — bounded repair loops -/

/-- The course-parse attempt loop never performs more router invocations
than it has loop iterations. -/
theorem parseCourseLoop_calls_le (deps : ParseCourseUseCaseDeps π) (env : ParseEnv π)
    (cmd : ParseCourseCommand) (raw : CourseRawTextRecord) :
    ∀ (fuel : Nat) (prompt : String) (attempt : Nat),
      (parseCourseLoop deps env cmd raw prompt attempt fuel).routerCalls ≤ fuel := by
  intro fuel
  induction fuel with
  | zero => intro prompt attempt; simp [parseCourseLoop]
  | succ n ih =>
    intro prompt attempt
    simp only [parseCourseLoop]
    split
    · simp
    · rename_i e heq
      cases e <;>
        simp [LLMError.isMissingApiKeyClass, LLMError.isRequestRejectedClass,
          LLMError.isTemporaryClass]
      case responseValidation a b c d =>
        split
        · simp
        · have := ih (deps.build_repair_prompt c d) (attempt + 1)
          simp only []
          omega

/-- The practice-generation attempt loop never performs more router
invocations than it has loop iterations. -/
theorem practiceLoop_calls_le (deps : PracticeUseCaseDeps) (env : PracticeEnv)
    (cmd : GeneratePracticeCommand) (ctx : PracticeModuleContext) :
    ∀ (fuel : Nat) (prompt : String) (attempt : Nat),
      (practiceLoop deps env cmd ctx prompt attempt fuel).routerCalls ≤ fuel := by
  intro fuel
  induction fuel with
  | zero => intro prompt attempt; simp [practiceLoop]
  | succ n ih =>
    intro prompt attempt
    simp only [practiceLoop]
    split
    · rename_i resp heq
      split
      · split
        · simp
        · rename_i hfuel
          have := ih (deps.build_repair_prompt resp.output_text
            (insufficientCandidatesMessage cmd.candidate_count
              resp.parsed.candidates.length) cmd.candidate_count) (attempt + 1)
          simp only []
          omega
      · split
        · simp
        · split <;> simp
    · rename_i e heq
      cases e <;>
        simp [LLMError.isMissingApiKeyClass, LLMError.isRequestRejectedClass,
          LLMError.isTemporaryClass]
      case responseValidation a b c d =>
        split
        · simp
        · have := ih (deps.build_repair_prompt c d cmd.candidate_count) (attempt + 1)
          simp only []
          omega

/-- C6: for both repair-loop orchestrators with `maxRepairAttempts = 1`, a
router that raises schema-invalid on every invocation causes exactly 2
router invocations followed by the user-facing "could not produce a valid
result" `ValueError`; and in general each orchestrator performs at most
`maxRepairAttempts + 1` router invocations. -/
theorem repairLoops_two_attempts_then_fail (pdeps : ParseCourseUseCaseDeps π)
    (penv : ParseEnv π) (pcmd : ParseCourseCommand) (raw : CourseRawTextRecord)
    (qdeps : PracticeUseCaseDeps) (qenv : PracticeEnv) (qcmd : GeneratePracticeCommand)
    (ctx : PracticeModuleContext)
    (pdeps2 : ParseCourseUseCaseDeps π) (penv2 : ParseEnv π) (pcmd2 : ParseCourseCommand)
    (qdeps2 : PracticeUseCaseDeps) (qenv2 : PracticeEnv) (qcmd2 : GeneratePracticeCommand)
    (hpraw : penv.rawText = some raw)
    (hpid : pcmd.course_id ≠ "")
    (hpmax : pcmd.max_repair_attempts = 1)
    (hprouter : ∀ n req, ∃ a b c d,
      penv.router n req = .error (.responseValidation a b c d))
    (hqctx : qenv.moduleContext = some ctx)
    (hqid : qcmd.module_id ≠ "")
    (hqcount : 1 ≤ qcmd.candidate_count)
    (hqmax : qcmd.max_repair_attempts = 1)
    (hqrouter : ∀ n req, ∃ a b c d,
      qenv.router n req = .error (.responseValidation a b c d)) :
    (parseCourseExecute pdeps penv pcmd).result =
        .error (.valueError parseCourseFailMessage) ∧
      (parseCourseExecute pdeps penv pcmd).routerCalls = 2 ∧
      (practiceExecute qdeps qenv qcmd).result =
        .error (.valueError practiceSchemaFailMessage) ∧
      (practiceExecute qdeps qenv qcmd).routerCalls = 2 ∧
      (parseCourseExecute pdeps2 penv2 pcmd2).routerCalls ≤
        (pcmd2.max_repair_attempts + 1).toNat ∧
      (practiceExecute qdeps2 qenv2 qcmd2).routerCalls ≤
        (qcmd2.max_repair_attempts + 1).toNat := by
  obtain ⟨a1, b1, c1, d1, h1⟩ := hprouter 1
    (parseCourseRequest pdeps penv pcmd (pdeps.build_user_prompt raw.content))
  obtain ⟨a2, b2, c2, d2, h2⟩ := hprouter 2
    (parseCourseRequest pdeps penv pcmd (pdeps.build_repair_prompt c1 d1))
  obtain ⟨e1, f1, g1, k1, hq1⟩ := hqrouter 1
    (practiceRequest qdeps qenv ctx qcmd
      (qdeps.build_user_prompt ctx qcmd.difficulty qcmd.candidate_count))
  obtain ⟨e2, f2, g2, k2, hq2⟩ := hqrouter 2
    (practiceRequest qdeps qenv ctx qcmd
      (qdeps.build_repair_prompt g1 k1 qcmd.candidate_count))
  have hparse : parseCourseExecute pdeps penv pcmd =
      parseCourseLoop pdeps penv pcmd raw (pdeps.build_user_prompt raw.content) 1 2 := by
    simp [parseCourseExecute, hpraw, hpid, hpmax]
  have hpractice : practiceExecute qdeps qenv qcmd =
      practiceLoop qdeps qenv qcmd ctx
        (qdeps.build_user_prompt ctx qcmd.difficulty qcmd.candidate_count) 1 2 := by
    simp [practiceExecute, hqctx, hqid, hqmax]
    omega
  refine ⟨?_, ?_, ?_, ?_, ?_, ?_⟩
  · rw [hparse]
    simp [parseCourseLoop, h1, h2, LLMError.isMissingApiKeyClass,
      LLMError.isRequestRejectedClass, LLMError.isTemporaryClass]
  · rw [hparse]
    simp [parseCourseLoop, h1, h2, LLMError.isMissingApiKeyClass,
      LLMError.isRequestRejectedClass, LLMError.isTemporaryClass]
  · rw [hpractice]
    simp [practiceLoop, hq1, hq2, LLMError.isMissingApiKeyClass,
      LLMError.isRequestRejectedClass, LLMError.isTemporaryClass]
  · rw [hpractice]
    simp [practiceLoop, hq1, hq2, LLMError.isMissingApiKeyClass,
      LLMError.isRequestRejectedClass, LLMError.isTemporaryClass]
  · unfold parseCourseExecute
    split
    · simp
    · split
      · simp
      · split
        · simp
        · exact parseCourseLoop_calls_le pdeps2 penv2 pcmd2 _ _ _ _
  · unfold practiceExecute
    split
    · simp
    · split
      · simp
      · split
        · simp
        · split
          · simp
          · exact practiceLoop_calls_le qdeps2 qenv2 qcmd2 _ _ _ _

/-- A response schema for practice generation used by concrete scenarios. -/
def demoPracticeSchema : SchemaModel PracticeGenerationV1 :=
  ⟨fun _ => .error "invalid", "practice-schema"⟩

/-- A concrete raw-text record for parse scenarios. -/
def demoRawText : CourseRawTextRecord := ⟨"course-1", "raw-1", "content", "hash", 7⟩

/-- Concrete parse use-case collaborators. -/
def demoParseDeps : ParseCourseUseCaseDeps Unit :=
  ⟨"sys", demoSchemaAcceptAll, fun c => "user:" ++ c, fun io ve => "repair:" ++ io ++ ":" ++ ve⟩

/-- A parse environment whose router raises schema-invalid on every
invocation. -/
def demoParseEnvSchemaErr : ParseEnv Unit :=
  ⟨some demoRawText, fun _ _ => .error (.responseValidation "rp" "cid" "bad" "errs"), "corr"⟩

/-- A concrete module context for practice scenarios. -/
def demoModuleContext : PracticeModuleContext :=
  ⟨"module-1", "course-1", none, "Module", 1, [], [], none⟩

/-- Concrete practice use-case collaborators. -/
def demoPracticeDeps : PracticeUseCaseDeps :=
  ⟨"sys", demoPracticeSchema, fun _ _ n => "uprompt:" ++ toString n,
    fun io ve n => "repair:" ++ io ++ ":" ++ ve ++ ":" ++ toString n⟩

/-- A practice environment whose router raises schema-invalid on every
invocation. -/
def demoPracticeEnvSchemaErr : PracticeEnv :=
  ⟨some demoModuleContext,
    fun _ _ => .error (.responseValidation "rp" "cid" "bad" "errs"),
    "corr", none, fun _ => [], none, []⟩

/-- C6 witness: both orchestrators at `maxRepairAttempts = 1` with an
always-schema-invalid router. -/
theorem repairLoops_two_attempts_then_fail_witness :
    (parseCourseExecute demoParseDeps demoParseEnvSchemaErr ⟨"course-1", none, 1⟩).result =
        .error (.valueError parseCourseFailMessage) ∧
      (parseCourseExecute demoParseDeps demoParseEnvSchemaErr
        ⟨"course-1", none, 1⟩).routerCalls = 2 ∧
      (practiceExecute demoPracticeDeps demoPracticeEnvSchemaErr
        ⟨"module-1", .easy, 3, 1⟩).result =
        .error (.valueError practiceSchemaFailMessage) ∧
      (practiceExecute demoPracticeDeps demoPracticeEnvSchemaErr
        ⟨"module-1", .easy, 3, 1⟩).routerCalls = 2 := by
  have h := repairLoops_two_attempts_then_fail demoParseDeps demoParseEnvSchemaErr
    ⟨"course-1", none, 1⟩ demoRawText demoPracticeDeps demoPracticeEnvSchemaErr
    ⟨"module-1", .easy, 3, 1⟩ demoModuleContext
    demoParseDeps demoParseEnvSchemaErr ⟨"course-1", none, 1⟩
    demoPracticeDeps demoPracticeEnvSchemaErr ⟨"module-1", .easy, 3, 1⟩
    rfl (by decide) rfl (fun n req => ⟨"rp", "cid", "bad", "errs", rfl⟩)
    rfl (by decide) (by decide) rfl (fun n req => ⟨"rp", "cid", "bad", "errs", rfl⟩)
  exact ⟨h.1, h.2.1, h.2.2.1, h.2.2.2.1⟩

/-! ## C7 — candidate-count refinement in practice generation -/

/-- With a single remaining iteration every branch of the practice loop is
terminal: exactly one router invocation with the entry prompt. -/
theorem practiceLoop_last_iteration (deps : PracticeUseCaseDeps) (env : PracticeEnv)
    (cmd : GeneratePracticeCommand) (ctx : PracticeModuleContext)
    (prompt : String) (attempt : Nat) :
    (practiceLoop deps env cmd ctx prompt attempt 1).promptsUsed = [prompt] ∧
      (practiceLoop deps env cmd ctx prompt attempt 1).routerCalls = 1 := by
  simp only [practiceLoop]
  split
  · split
    · simp
    · split
      · simp
      · split <;> simp
  · rename_i e heq
    cases e <;>
      simp [LLMError.isMissingApiKeyClass, LLMError.isRequestRejectedClass,
        LLMError.isTemporaryClass]

/-- C7: after a structurally valid router response with `k` candidates and
requested count `N`: a shortfall (`k < N`) yields no drafts and is treated
exactly like a schema failure — the next attempt's user prompt is the
repair prompt built from the shortfall diagnostic "expected N, got k", and
the user-facing hard failure occurs only when attempts are exhausted; with
`k ≥ N`, exactly the first `N` candidates are kept as drafts with
`candidate_index` running 1..N in order, and that batch is what is handed
to persistence. -/
theorem practice_candidate_count_refinement
    (resp : LLMResponse PracticeGenerationV1) (N : Nat)
    (deps : PracticeUseCaseDeps) (env env2 : PracticeEnv) (ctx : PracticeModuleContext)
    (m : String) (diff : PracticeDifficulty) (count : Nat)
    (resp2 : LLMResponse PracticeGenerationV1) (cur : PracticeTask)
    (hctx : env.moduleContext = some ctx)
    (hm : m ≠ "")
    (hcount : 1 ≤ count)
    (hr1 : env.router 1 (practiceRequest deps env ctx ⟨m, diff, count, 1⟩
      (deps.build_user_prompt ctx diff count)) = .ok resp)
    (hshort : resp.parsed.candidates.length < count)
    (hctx2 : env2.moduleContext = some ctx)
    (hr2 : env2.router 1 (practiceRequest deps env2 ctx ⟨m, diff, count, 2⟩
      (deps.build_user_prompt ctx diff count)) = .ok resp2)
    (henough : count ≤ resp2.parsed.candidates.length)
    (hpersist : env2.persistRaises = none)
    (hcur : env2.currentAfterSave = some cur) :
    (resp.parsed.candidates.length < N → buildCandidateDrafts resp N = none) ∧
    (N ≤ resp.parsed.candidates.length → ∃ drafts,
      buildCandidateDrafts resp N = some drafts ∧
      drafts.length = N ∧
      drafts.map (fun d => d.candidate_index) = List.range' 1 N ∧
      drafts.map (fun d => d.statement) =
        (resp.parsed.candidates.take N).map (fun c => c.statement) ∧
      drafts.map (fun d => d.expected_outline) =
        (resp.parsed.candidates.take N).map (fun c => c.expected_outline)) ∧
    ((practiceExecute deps env ⟨m, diff, count, 1⟩).promptsUsed =
      [deps.build_user_prompt ctx diff count,
       deps.build_repair_prompt resp.output_text
         (insufficientCandidatesMessage count resp.parsed.candidates.length) count] ∧
     (practiceExecute deps env ⟨m, diff, count, 1⟩).routerCalls = 2) ∧
    ((practiceExecute deps env ⟨m, diff, count, 0⟩).result =
       .error (.valueError practiceShortfallFailMessage) ∧
     (practiceExecute deps env ⟨m, diff, count, 0⟩).routerCalls = 1 ∧
     (practiceExecute deps env ⟨m, diff, count, 0⟩).persistedBatches = []) ∧
    (∃ drafts, buildCandidateDrafts resp2 count = some drafts ∧
      (practiceExecute deps env2 ⟨m, diff, count, 2⟩).persistedBatches = [drafts] ∧
      drafts.map (fun d => d.candidate_index) = List.range' 1 count ∧
      exceptIsOk (practiceExecute deps env2 ⟨m, diff, count, 2⟩).result = true) := by
  have hdraftsGeneral : ∀ (r : LLMResponse PracticeGenerationV1) (n : Nat),
      n ≤ r.parsed.candidates.length →
      buildCandidateDrafts r n =
        some ((r.parsed.candidates.take n).enum.map
          (fun ic => ⟨ic.1 + 1, ic.2.statement, ic.2.expected_outline⟩)) := by
    intro r n hn
    simp [buildCandidateDrafts, Nat.not_lt.mpr hn]
  have hidx : ∀ (r : LLMResponse PracticeGenerationV1) (n : Nat),
      n ≤ r.parsed.candidates.length →
      ((r.parsed.candidates.take n).enum.map
        (fun ic => (⟨ic.1 + 1, ic.2.statement, ic.2.expected_outline⟩ : PracticeTaskDraft))).map
          (fun d => d.candidate_index) = List.range' 1 n := by
    intro r n hn
    rw [List.map_map]
    have : ((fun d : PracticeTaskDraft => d.candidate_index) ∘
        (fun ic : Nat × PracticeGenerationCandidateV1 =>
          (⟨ic.1 + 1, ic.2.statement, ic.2.expected_outline⟩ : PracticeTaskDraft))) =
        (fun ic : Nat × PracticeGenerationCandidateV1 => ic.1 + 1) := rfl
    rw [this]
    have h2 : (fun ic : Nat × PracticeGenerationCandidateV1 => ic.1 + 1) =
        ((fun i => i + 1) ∘ Prod.fst) := rfl
    rw [h2, ← List.map_map, List.enum_map_fst, List.length_take,
      Nat.min_eq_left hn, List.range'_eq_map_range]
    simp [Nat.add_comm]
  refine ⟨?_, ?_, ?_, ?_, ?_⟩
  · intro hlt
    simp [buildCandidateDrafts, hlt]
  · intro hge
    refine ⟨_, hdraftsGeneral resp N hge, ?_, hidx resp N hge, ?_, ?_⟩
    · simp [List.length_take, Nat.min_eq_left hge]
    · rw [List.map_map]
      have : ((fun d : PracticeTaskDraft => d.statement) ∘
          (fun ic : Nat × PracticeGenerationCandidateV1 =>
            (⟨ic.1 + 1, ic.2.statement, ic.2.expected_outline⟩ : PracticeTaskDraft))) =
          ((fun c : PracticeGenerationCandidateV1 => c.statement) ∘ Prod.snd) := rfl
      rw [this, ← List.map_map, List.enum_map_snd]
    · rw [List.map_map]
      have : ((fun d : PracticeTaskDraft => d.expected_outline) ∘
          (fun ic : Nat × PracticeGenerationCandidateV1 =>
            (⟨ic.1 + 1, ic.2.statement, ic.2.expected_outline⟩ : PracticeTaskDraft))) =
          ((fun c : PracticeGenerationCandidateV1 => c.expected_outline) ∘ Prod.snd) := rfl
      rw [this, ← List.map_map, List.enum_map_snd]
  · have hc1 : ¬ (count < 1) := by omega
    have hnone : buildCandidateDrafts resp count = none := by
      simp [buildCandidateDrafts, hshort]
    have hexec : practiceExecute deps env ⟨m, diff, count, 1⟩ =
        practiceLoop deps env ⟨m, diff, count, 1⟩ ctx
          (deps.build_user_prompt ctx diff count) 1 2 := by
      simp [practiceExecute, hctx, hm, hc1]
    obtain ⟨h2p, h2c⟩ := practiceLoop_last_iteration deps env ⟨m, diff, count, 1⟩ ctx
      (deps.build_repair_prompt resp.output_text
        (insufficientCandidatesMessage count resp.parsed.candidates.length) count) 2
    rw [hexec, practiceLoop.eq_def]
    simp [hr1, hnone, h2p, h2c]
  · have hc1 : ¬ (count < 1) := by omega
    have hnone : buildCandidateDrafts resp count = none := by
      simp [buildCandidateDrafts, hshort]
    have hr0 : env.router 1 (practiceRequest deps env ctx ⟨m, diff, count, 0⟩
        (deps.build_user_prompt ctx diff count)) = .ok resp := hr1
    have hexec : practiceExecute deps env ⟨m, diff, count, 0⟩ =
        practiceLoop deps env ⟨m, diff, count, 0⟩ ctx
          (deps.build_user_prompt ctx diff count) 1 1 := by
      simp [practiceExecute, hctx, hm, hc1]
    rw [hexec]
    simp [practiceLoop, hr0, hnone]
  · have hc1 : ¬ (count < 1) := by omega
    have hsome := hdraftsGeneral resp2 count henough
    have hexec : practiceExecute deps env2 ⟨m, diff, count, 2⟩ =
        practiceLoop deps env2 ⟨m, diff, count, 2⟩ ctx
          (deps.build_user_prompt ctx diff count) 1 3 := by
      simp [practiceExecute, hctx2, hm, hc1]
    refine ⟨_, hsome, ?_, hidx resp2 count henough, ?_⟩
    · rw [hexec]
      simp [practiceLoop, hr2, hsome, hpersist, hcur]
    · rw [hexec]
      simp [practiceLoop, hr2, hsome, hpersist, hcur, exceptIsOk]

/-- A short practice response: one candidate. -/
def demoRespShort : LLMResponse PracticeGenerationV1 :=
  ⟨"call-1", .openrouter, "m", "h", 5, ⟨[⟨"s1", "o1"⟩]⟩, "raw-out", none, none⟩

/-- A full practice response: three candidates. -/
def demoRespFull : LLMResponse PracticeGenerationV1 :=
  ⟨"call-2", .openrouter, "m", "h", 5,
    ⟨[⟨"s1", "o1"⟩, ⟨"s2", "o2"⟩, ⟨"s3", "o3"⟩]⟩, "raw-out", none, none⟩

/-- A persisted practice task. -/
def demoTask : PracticeTask := ⟨"task-1", "s1"⟩

/-- A practice environment always returning the short response. -/
def demoEnvRespShort : PracticeEnv :=
  ⟨some demoModuleContext, fun _ _ => .ok demoRespShort, "corr", none,
    fun ds => ds.map (fun d => ⟨"id", d.statement⟩), none, []⟩

/-- A practice environment always returning the full response, with working
persistence. -/
def demoEnvRespFull : PracticeEnv :=
  ⟨some demoModuleContext, fun _ _ => .ok demoRespFull, "corr", none,
    fun ds => ds.map (fun d => ⟨"id", d.statement⟩), some demoTask, []⟩

/-- C7 witness: requested count 3, one candidate returned → repair path and
exhaustion failure; three candidates returned → persisted batch indexed
1..3 and success. -/
theorem practice_candidate_count_refinement_witness :
    buildCandidateDrafts demoRespShort 3 = none ∧
    (practiceExecute demoPracticeDeps demoEnvRespShort
      ⟨"module-1", .easy, 3, 1⟩).routerCalls = 2 ∧
    (practiceExecute demoPracticeDeps demoEnvRespShort ⟨"module-1", .easy, 3, 0⟩).result =
      .error (.valueError practiceShortfallFailMessage) ∧
    exceptIsOk (practiceExecute demoPracticeDeps demoEnvRespFull
      ⟨"module-1", .easy, 3, 2⟩).result = true := by
  have h := practice_candidate_count_refinement demoRespShort 3 demoPracticeDeps
    demoEnvRespShort demoEnvRespFull demoModuleContext "module-1" .easy 3
    demoRespFull demoTask rfl (by decide) (by decide) rfl (by decide) rfl rfl
    (by decide) rfl rfl
  obtain ⟨ds, _, _, _, hok⟩ := h.2.2.2.2
  exact ⟨h.1 (by decide), h.2.2.1.2, h.2.2.2.1.1, hok⟩

/-! ## C9 — markdown fence stripping vs. plain text -/

/-- The markdown-fenced form of a payload: an opener line (` ``` ` or
` ```json `), the payload, and a closing ` ``` ` line. -/
def wrapFence (opener t : String) : String :=
  opener ++ "\n" ++ t ++ "\n```"

/-- The conditions under which `_strip_markdown_json_fence` strips a fence
from an already-stripped payload, read off the source branches. -/
def IsFencedBlock (s : String) : Prop :=
  pyStartsWith s "```" = true ∧
  ¬ (pySplitlines s).length < 3 ∧
  pyStrip ((pySplitlines s).getLastD "") = "```" ∧
  ¬ (asciiLower (pyStrip ((pySplitlines s).headD "")) ≠ "```" ∧
      ¬ pyStartsWith (asciiLower (pyStrip ((pySplitlines s).headD ""))) "```json" = true)

instance (s : String) : Decidable (IsFencedBlock s) := by
  unfold IsFencedBlock
  infer_instance

/-- On a payload that is not a strippable fenced block,
`_strip_markdown_json_fence` only strips whitespace. -/
theorem stripFence_of_not_fenced (value : String)
    (h : ¬ IsFencedBlock (pyStrip value)) :
    stripMarkdownJsonFence value = pyStrip value := by
  simp only [stripMarkdownJsonFence]
  by_cases hA : pyStartsWith (pyStrip value) "```" = true
  · rw [if_neg (not_not_intro hA)]
    by_cases hB : (pySplitlines (pyStrip value)).length < 3
    · rw [if_pos hB]
    · rw [if_neg hB]
      by_cases hC : pyStrip ((pySplitlines (pyStrip value)).getLastD "") = "```"
      · rw [if_neg (not_not_intro hC)]
        by_cases hD : asciiLower (pyStrip ((pySplitlines (pyStrip value)).headD "")) ≠ "```" ∧
            ¬ pyStartsWith
              (asciiLower (pyStrip ((pySplitlines (pyStrip value)).headD ""))) "```json" = true
        · rw [if_pos hD]
        · exact absurd ⟨hA, hB, hC, hD⟩ h
      · rw [if_pos hC]
  · rw [if_pos hA]

/-- On a strippable fenced block, `_strip_markdown_json_fence` joins and
strips the interior lines. -/
theorem stripFence_of_fenced (value : String) (h : IsFencedBlock (pyStrip value)) :
    stripMarkdownJsonFence value =
      pyStrip (joinLines (((pySplitlines (pyStrip value)).drop 1).dropLast)) := by
  obtain ⟨hA, hB, hC, hD⟩ := h
  simp only [stripMarkdownJsonFence]
  rw [if_neg (not_not_intro hA), if_neg hB, if_neg (not_not_intro hC), if_neg hD]

/-- `String.mk` of a string's characters is the string itself. -/
theorem String.mk_data : ∀ s : String, String.mk s.data = s
  | ⟨_⟩ => rfl

/-- One step of `splitLinesAux` on a cons cell. -/
theorem splitLinesAux_cons (c : Char) (rest acc : List Char) :
    splitLinesAux (c :: rest) acc =
      if c = '\n' then acc.reverse :: splitLinesAux rest []
      else splitLinesAux rest (c :: acc) := rfl

/-- `splitLinesAux` on the empty list. -/
theorem splitLinesAux_nil (acc : List Char) :
    splitLinesAux [] acc = if acc.isEmpty then [] else [acc.reverse] := rfl

/-- One step of `normalizeNewlines` on two or more characters. -/
theorem normalizeNewlines_cons₂ (c1 c2 : Char) (rest : List Char) :
    normalizeNewlines (c1 :: c2 :: rest) =
      if c1 = '\r' then
        if c2 = '\n' then '\n' :: normalizeNewlines rest
        else '\n' :: normalizeNewlines (c2 :: rest)
      else if pyIsLineBreak c1 then '\n' :: normalizeNewlines (c2 :: rest)
      else c1 :: normalizeNewlines (c2 :: rest) := rfl

/-- Boundary normalization is the identity on text whose only line-boundary
characters are line feeds. -/
theorem normalizeNewlines_eq_self :
    ∀ t : List Char, (∀ c ∈ t, pyIsLineBreak c = true → c = '\n') →
      normalizeNewlines t = t
  | [], _ => rfl
  | [c], h => by
    show (if pyIsLineBreak c then ['\n'] else [c]) = [c]
    by_cases hb : pyIsLineBreak c = true
    · rw [if_pos hb, h c (List.mem_singleton_self c) hb]
    · rw [if_neg hb]
  | c1 :: c2 :: rest, h => by
    have h2 : ∀ c ∈ c2 :: rest, pyIsLineBreak c = true → c = '\n' :=
      fun c hm => h c (List.mem_cons_of_mem c1 hm)
    by_cases hb : pyIsLineBreak c1 = true
    · have hc1 : c1 = '\n' := h c1 (List.mem_cons_self c1 (c2 :: rest)) hb
      subst hc1
      rw [normalizeNewlines_cons₂, if_neg (by decide : ¬ ('\n' = '\r')),
        if_pos (by decide : pyIsLineBreak '\n' = true),
        normalizeNewlines_eq_self (c2 :: rest) h2]
    · have h1 : c1 ≠ '\r' := fun hcc => hb (hcc ▸ (by decide : pyIsLineBreak '\r' = true))
      rw [normalizeNewlines_cons₂, if_neg h1, if_neg hb,
        normalizeNewlines_eq_self (c2 :: rest) h2]

/-- Splitting at an initial newline-free segment followed by a newline. -/
theorem splitLinesAux_segment (u : List Char) (hu : ∀ c ∈ u, c ≠ '\n') :
    ∀ (acc rest : List Char),
      splitLinesAux (u ++ '\n' :: rest) acc = (acc.reverse ++ u) :: splitLinesAux rest [] := by
  induction u with
  | nil =>
    intro acc rest
    rw [List.nil_append, splitLinesAux_cons, if_pos rfl]
    simp
  | cons c u ih =>
    intro acc rest
    have hc := hu c (List.mem_cons_self c u)
    have hu' : ∀ x ∈ u, x ≠ '\n' := fun x hx => hu x (List.mem_cons_of_mem c hx)
    rw [List.cons_append, splitLinesAux_cons, if_neg hc, ih hu' (c :: acc) rest]
    simp

/-- Splitting a newline-terminated payload followed by more text splits as
the payload's lines followed by the rest's lines. -/
theorem splitLinesAux_append (t : List Char) :
    ∀ (acc rest : List Char),
      splitLinesAux (t ++ '\n' :: rest) acc =
        splitLinesAux (t ++ ['\n']) acc ++ splitLinesAux rest [] := by
  induction t with
  | nil =>
    intro acc rest
    rw [List.nil_append, List.nil_append, splitLinesAux_cons, if_pos rfl,
      splitLinesAux_cons, if_pos rfl, splitLinesAux_nil]
    simp
  | cons c t ih =>
    intro acc rest
    by_cases hn : c = '\n'
    · subst hn
      rw [List.cons_append, List.cons_append, splitLinesAux_cons, if_pos rfl,
        splitLinesAux_cons, if_pos rfl, ih [] rest]
      simp
    · rw [List.cons_append, List.cons_append, splitLinesAux_cons, if_neg hn,
        splitLinesAux_cons, if_neg hn]
      exact ih (c :: acc) rest

/-- A newline-terminated split is never empty. -/
theorem splitLinesAux_ne_nil (u : List Char) :
    ∀ acc : List Char, splitLinesAux (u ++ ['\n']) acc ≠ [] := by
  induction u with
  | nil =>
    intro acc
    rw [List.nil_append, splitLinesAux_cons, if_pos rfl]
    simp
  | cons c u ih =>
    intro acc
    by_cases hn : c = '\n'
    · subst hn
      rw [List.cons_append, splitLinesAux_cons, if_pos rfl]
      simp
    · rw [List.cons_append, splitLinesAux_cons, if_neg hn]
      exact ih (c :: acc)

/-- Stripping whitespace is a no-op on a backtick-delimited list. -/
theorem stripChars_backtick (ys : List Char) :
    stripChars ('`' :: ys ++ ['`']) = '`' :: ys ++ ['`'] := by
  have hsp : pyIsSpace '`' = false := rfl
  unfold stripChars
  rw [List.cons_append, List.dropWhile_cons]
  simp only [hsp, Bool.false_eq_true, if_false]
  have hrev : ('`' :: (ys ++ ['`'])).reverse = '`' :: (ys.reverse ++ ['`']) := by
    simp
  rw [hrev, List.dropWhile_cons]
  simp only [hsp, Bool.false_eq_true, if_false]
  simp

/-- Joining the newline-terminated split of a payload recovers the
payload. -/
theorem joinNL_splitLinesAux (t : List Char) :
    ∀ acc : List Char, joinNL (splitLinesAux (t ++ ['\n']) acc) = acc.reverse ++ t := by
  induction t with
  | nil =>
    intro acc
    rw [List.nil_append, splitLinesAux_cons, if_pos rfl, splitLinesAux_nil]
    simp [joinNL]
  | cons c t ih =>
    intro acc
    by_cases hn : c = '\n'
    · subst hn
      rw [List.cons_append, splitLinesAux_cons, if_pos rfl]
      cases hsp : splitLinesAux (t ++ ['\n']) [] with
      | nil => exact absurd hsp (splitLinesAux_ne_nil t [])
      | cons l ls =>
        have hj := ih []
        rw [hsp] at hj
        simp only [joinNL, hj]
        simp
    · rw [List.cons_append, splitLinesAux_cons, if_neg hn, ih (c :: acc)]
      simp

/-- The characters of a fenced payload. -/
theorem wrapFence_data (op t : String) :
    (wrapFence op t).data = op.data ++ '\n' :: (t.data ++ '\n' :: "```".data) := by
  simp [wrapFence, String.data_append]

/-- Stripping is a no-op on a fenced payload whose opener starts with a
backtick. -/
theorem pyStrip_wrapFence (op t : String) (hophead : ∃ tl, op.data = '`' :: tl) :
    pyStrip (wrapFence op t) = wrapFence op t := by
  obtain ⟨tl, htl⟩ := hophead
  have hshape : (wrapFence op t).data =
      '`' :: (tl ++ '\n' :: (t.data ++ '\n' :: ['`', '`'])) ++ ['`'] := by
    rw [wrapFence_data, htl]
    simp
  unfold pyStrip
  rw [hshape, stripChars_backtick, ← hshape, String.mk_data]

/-- The line structure of a fenced payload when the payload's only
line-boundary characters are line feeds and the opener contains no
line-boundary character: the opener line, the payload's lines, and the
closing fence line. -/
theorem pySplitlines_wrapFence (op t : String)
    (honly : ∀ c ∈ t.data, pyIsLineBreak c = true → c = '\n')
    (hopbr : ∀ c ∈ op.data, pyIsLineBreak c = false) :
    pySplitlines (wrapFence op t) =
      op :: ((splitLinesAux (t.data ++ ['\n']) []).map (fun cs => (⟨cs⟩ : String))
        ++ ["```"]) := by
  have hopnl : ∀ c ∈ op.data, c ≠ '\n' := by
    intro c hm he
    have hf := hopbr c hm
    rw [he] at hf
    exact absurd hf (by decide)
  unfold pySplitlines
  rw [wrapFence_data]
  have hfull : ∀ c ∈ op.data ++ '\n' :: (t.data ++ '\n' :: "```".data),
      pyIsLineBreak c = true → c = '\n' := by
    intro c hm hb
    simp only [List.mem_append, List.mem_cons] at hm
    rcases hm with h | h | h | h | h
    · rw [hopbr c h] at hb
      exact absurd hb (by decide)
    · exact h
    · exact honly c h hb
    · exact h
    · rcases h with rfl | rfl | rfl | h
      · exact absurd hb (by decide)
      · exact absurd hb (by decide)
      · exact absurd hb (by decide)
      · exact absurd h (List.not_mem_nil c)
  rw [normalizeNewlines_eq_self _ hfull]
  rw [splitLinesAux_segment op.data hopnl [] _]
  rw [splitLinesAux_append t.data [] _]
  have h3 : splitLinesAux "```".data [] = ["```".data] := rfl
  rw [h3]
  simp [String.mk_data]

/-- Stripping the fence from a fenced payload whose only line-boundary
characters are line feeds yields the stripped payload: the interior lines
joined by newlines reconstruct the payload exactly. -/
theorem stripFence_wrap_core (op t : String)
    (honly : ∀ c ∈ t.data, pyIsLineBreak c = true → c = '\n')
    (hopbr : ∀ c ∈ op.data, pyIsLineBreak c = false)
    (hophead : ∃ tl, op.data = '`' :: tl)
    (hstarts : pyStartsWith op "```" = true)
    (hfirst : ¬ (asciiLower (pyStrip op) ≠ "```" ∧
        ¬ pyStartsWith (asciiLower (pyStrip op)) "```json" = true)) :
    stripMarkdownJsonFence (wrapFence op t) = pyStrip t := by
  have hstrip : pyStrip (wrapFence op t) = wrapFence op t := pyStrip_wrapFence op t hophead
  have hlines := pySplitlines_wrapFence op t honly hopbr
  have hlines' : pySplitlines (pyStrip (wrapFence op t)) =
      op :: ((splitLinesAux (t.data ++ ['\n']) []).map (fun cs => (⟨cs⟩ : String))
        ++ ["```"]) := by rw [hstrip]; exact hlines
  have hseg_ne : (splitLinesAux (t.data ++ ['\n']) []).map (fun cs => (⟨cs⟩ : String)) ≠ [] := by
    intro hmap
    exact splitLinesAux_ne_nil t.data [] (List.map_eq_nil_iff.mp hmap)
  have hfb : IsFencedBlock (pyStrip (wrapFence op t)) := by
    refine ⟨?_, ?_, ?_, ?_⟩
    · rw [hstrip]
      unfold pyStartsWith
      rw [List.isPrefixOf_iff_prefix]
      have hpre : "```".data <+: op.data := List.isPrefixOf_iff_prefix.mp hstarts
      rw [wrapFence_data]
      exact hpre.trans (List.prefix_append op.data _)
    · rw [hlines']
      simp only [List.length_cons, List.length_append, List.length_singleton]
      have hpos : 0 < ((splitLinesAux (t.data ++ ['\n']) []).map
          (fun cs => (⟨cs⟩ : String))).length := List.length_pos.mpr hseg_ne
      omega
    · rw [hlines']
      have : (op :: ((splitLinesAux (t.data ++ ['\n']) []).map (fun cs => (⟨cs⟩ : String))
          ++ ["```"])).getLastD "" =
          ((op :: (splitLinesAux (t.data ++ ['\n']) []).map (fun cs => (⟨cs⟩ : String)))
            ++ ["```"]).getLastD "" := by
        simp
      rw [this, List.getLastD_concat]
      rfl
    · rw [hlines']
      exact hfirst
  rw [stripFence_of_fenced _ hfb, hlines']
  have hdrop : ((op :: ((splitLinesAux (t.data ++ ['\n']) []).map (fun cs => (⟨cs⟩ : String))
      ++ ["```"])).drop 1).dropLast =
      (splitLinesAux (t.data ++ ['\n']) []).map (fun cs => (⟨cs⟩ : String)) := by
    simp only [List.drop_one, List.tail_cons]
    exact List.dropLast_concat
  rw [hdrop]
  have hjoin : joinLines ((splitLinesAux (t.data ++ ['\n']) []).map
      (fun cs => (⟨cs⟩ : String))) = String.mk t.data := by
    unfold joinLines
    rw [List.map_map]
    have hid : ((fun s : String => s.data) ∘ (fun cs : List Char => (⟨cs⟩ : String))) =
        (fun cs : List Char => cs) := rfl
    rw [hid, List.map_id', joinNL_splitLinesAux t.data []]
    rfl
  rw [hjoin]

/-- A schema accepting exactly the empty JSON object, used for concrete
fence scenarios. -/
def demoEmptyObjectSchema : SchemaModel Unit :=
  ⟨fun s => if s = "\x7b\x7d" then .ok () else .error "expected empty JSON object",
    "empty-object-schema"⟩

/-- C9 counterexample: for a payload that is itself a fenced block, the
fenced form does not parse identically to the unfenced form.  Unfenced, the
validator strips the payload's own fence and accepts the empty object;
fenced, stripping the outer fence exposes the inner fence as literal text,
which fails validation. -/
theorem fencedParse_not_invariant_for_fenced_payload :
    stripMarkdownJsonFence "```json\n\x7b\x7d\n```" = "\x7b\x7d" ∧
    stripMarkdownJsonFence (wrapFence "```json" "```json\n\x7b\x7d\n```") =
      "```json\n\x7b\x7d\n```" ∧
    parseSchema demoEmptyObjectSchema "```json\n\x7b\x7d\n```" "cid" = .ok () ∧
    exceptIsOk (parseSchema demoEmptyObjectSchema
      (wrapFence "```json" "```json\n\x7b\x7d\n```") "cid") = false :=
  ⟨rfl, rfl, rfl, rfl⟩

/-- C9 (amended): for every payload `t` whose only line-boundary characters
(in the full `str.splitlines` boundary set: `\r`, `\v`, `\f`, `\x1c`-`\x1e`,
`\x85`, U+2028, U+2029, `\n`) are line feeds, and whose stripped form is not
itself a strippable fenced block, wrapping `t` in a markdown fence (opened
by ` ``` ` or ` ```json `, closed by ` ``` `) does not change the normalized
text handed to the schema, so the fenced form validates exactly when the
unfenced form does, with the same parsed payload. -/
theorem fencedParse_invariance (π : Type) (schema : SchemaModel π) (cid : String)
    (p : π) (t : String)
    (honly : ∀ c ∈ t.data, pyIsLineBreak c = true → c = '\n')
    (hnf : ¬ IsFencedBlock (pyStrip t)) :
    stripMarkdownJsonFence (wrapFence "```json" t) = stripMarkdownJsonFence t ∧
    stripMarkdownJsonFence (wrapFence "```" t) = stripMarkdownJsonFence t ∧
    (parseSchema schema (wrapFence "```json" t) cid = .ok p ↔
      parseSchema schema t cid = .ok p) ∧
    (parseSchema schema (wrapFence "```" t) cid = .ok p ↔
      parseSchema schema t cid = .ok p) := by
  have hunf : stripMarkdownJsonFence t = pyStrip t := stripFence_of_not_fenced t hnf
  have hjson : stripMarkdownJsonFence (wrapFence "```json" t) = pyStrip t :=
    stripFence_wrap_core "```json" t honly (by decide)
      ⟨"``json".data, rfl⟩ (by decide) (by decide)
  have hplain : stripMarkdownJsonFence (wrapFence "```" t) = pyStrip t :=
    stripFence_wrap_core "```" t honly (by decide)
      ⟨"``".data, rfl⟩ (by decide) (by decide)
  refine ⟨by rw [hjson, hunf], by rw [hplain, hunf], ?_, ?_⟩
  · unfold parseSchema
    rw [hjson, hunf]
    cases hv : schema.validate (pyStrip t) <;> simp [hv]
  · unfold parseSchema
    rw [hplain, hunf]
    cases hv : schema.validate (pyStrip t) <;> simp [hv]

/-- C9 witness: the empty JSON object parses identically fenced and
unfenced. -/
theorem fencedParse_invariance_witness :
    parseSchema demoEmptyObjectSchema (wrapFence "```json" "\x7b\x7d") "cid" = .ok () ↔
      parseSchema demoEmptyObjectSchema "\x7b\x7d" "cid" = .ok () :=
  (fencedParse_invariance Unit demoEmptyObjectSchema "cid" () "\x7b\x7d"
    (by decide) (by decide)).2.2.1

end StudyWithAi
